import Mathlib

/-!
# Raytracing: the recursive shader, the camera ray generator and the progressive driver

A shallow embedding of `src/raytracer.cpp` / `src/raytracer.hpp`.

* `real_t` is an arbitrary linearly ordered field `α` (the rationals for evaluation,
  the reals for the geometric statements); `sqrt` and `tan` come in through `MathFns`.
* `size_t` values are natural numbers, reduced modulo `SIZE_MOD = 2 ^ 64` where the
  program does arithmetic on them; `int n` is an integer.
* Headers of the repository that are not part of the sources at hand (`math/vector.hpp`,
  `math/color.hpp`, `math/matrix.hpp`, `scene/scene.hpp`) are either modelled from the
  specification (vector and colour algebra) or taken as parameters (`Transforms`,
  `Geometry.check_geometry`, `to_array`).
* A local variable that the program reads without having assigned it takes its value from
  `Uninit` (for `raycolor`) or from an explicit argument (`is_done` of `raytrace`): the
  theorems quantify over these values.
-/

namespace Raytracing

/-! ## Vectors and colours -/

/-- Modelled from the spec: `Vector3` of `math/vector.hpp`, three real components. -/
structure Vector3 (α : Type) where
  x : α
  y : α
  z : α
deriving DecidableEq

/-- Modelled from the spec: `Color3` of `math/color.hpp`, three real channels. -/
structure Color3 (α : Type) where
  r : α
  g : α
  b : α
deriving DecidableEq

section Algebra

variable {α : Type} [LinearOrderedField α]

instance : Add (Vector3 α) := ⟨fun a b => ⟨a.x + b.x, a.y + b.y, a.z + b.z⟩⟩

instance : Sub (Vector3 α) := ⟨fun a b => ⟨a.x - b.x, a.y - b.y, a.z - b.z⟩⟩

instance : Neg (Vector3 α) := ⟨fun a => ⟨-a.x, -a.y, -a.z⟩⟩

/-- Product of a vector and a scalar (`s * v` and `v * s` of `math/vector.hpp`). -/
instance : SMul α (Vector3 α) := ⟨fun s a => ⟨s * a.x, s * a.y, s * a.z⟩⟩

instance : Add (Color3 α) := ⟨fun a b => ⟨a.r + b.r, a.g + b.g, a.b + b.b⟩⟩

/-- Channel-wise product of two colours. -/
instance : Mul (Color3 α) := ⟨fun a b => ⟨a.r * b.r, a.g * b.g, a.b * b.b⟩⟩

/-- Product of a colour and a scalar (`s * c` and `c * s` of `math/color.hpp`). -/
instance : SMul α (Color3 α) := ⟨fun s a => ⟨s * a.r, s * a.g, s * a.b⟩⟩

/-- Modelled from the spec: `Color3::Black`, the colour with all channels zero. -/
def Color3.Black : Color3 α := ⟨0, 0, 0⟩

/-- Modelled from the spec: `dot` of `math/vector.hpp`, the Euclidean inner product. -/
def dot (a b : Vector3 α) : α := a.x * b.x + a.y * b.y + a.z * b.z

/-- Modelled from the spec: `cross` of `math/vector.hpp`, the vector product. -/
def cross (a b : Vector3 α) : Vector3 α :=
  ⟨a.y * b.z - a.z * b.y, a.z * b.x - a.x * b.z, a.x * b.y - a.y * b.x⟩

/-- Modelled from the spec: `length` of `math/vector.hpp`, the Euclidean norm. -/
def length (sqrt : α → α) (v : Vector3 α) : α := sqrt (dot v v)

/-- Modelled from the spec: `normalize` of `math/vector.hpp`, the vector divided by its length. -/
def normalize (sqrt : α → α) (v : Vector3 α) : Vector3 α :=
  ⟨v.x / length sqrt v, v.y / length sqrt v, v.z / length sqrt v⟩

end Algebra

/-! ## Scene data (`scene/scene.hpp`, fields as used by `raytracer.cpp`) -/

/-- The functions of `<cmath>` used by the ray tracer. -/
structure MathFns (α : Type) where
  sqrt : α → α
  tan : α → α

structure Quaternion (α : Type) where
  w : α
  x : α
  y : α
  z : α

structure Matrix4 (α : Type) where
  m : Fin 4 → Fin 4 → α

structure Matrix3 (α : Type) where
  m : Fin 3 → Fin 3 → α

/-- The transform resolver of `math/matrix.hpp`, taken as a parameter. -/
structure Transforms (α : Type) where
  make_inverse_transformation_matrix : Vector3 α → Quaternion α → Vector3 α → Matrix4 α
  make_transformation_matrix : Vector3 α → Quaternion α → Vector3 α → Matrix4 α
  make_normal_matrix : Matrix4 α → Matrix3 α
  transform_point : Matrix4 α → Vector3 α → Vector3 α
  transform_vector : Matrix4 α → Vector3 α → Vector3 α
  mul_vector : Matrix3 α → Vector3 α → Vector3 α

structure Material (α : Type) where
  ambient : Color3 α
  diffuse : Color3 α
  specular : Color3 α
  refractive_index : α

structure RayInfo (α : Type) where
  origin : Vector3 α
  direction : Vector3 α

structure IntersectionInfo (α : Type) where
  t0 : α
  t1 : α
  localposition : Vector3 α
  localnormal : Vector3 α
  worldposition : Vector3 α
  worldnormal : Vector3 α
  material : Material α

/-- A geometry instance: its placement and its local intersection test. `check_geometry`
takes the intersection record by reference; the model returns the updated record. -/
structure Geometry (α : Type) where
  position : Vector3 α
  orientation : Quaternion α
  scale : Vector3 α
  check_geometry : RayInfo α → IntersectionInfo α → Bool × IntersectionInfo α

structure PointLight (α : Type) where
  position : Vector3 α
  color : Color3 α

structure Camera (α : Type) where
  position : Vector3 α
  direction : Vector3 α
  up : Vector3 α
  fov_radians : α
  aspect_ratio : α
  near_clip : α

structure Scene (α : Type) where
  geometries : List (Geometry α)
  lights : List (PointLight α)
  ambient_light : Color3 α
  background_color : Color3 α
  refractive_index : α
  camera : Camera α

/-- Contents of the local variables of `raycolor` that are declared without an initial
value: `index`, a fresh `IntersectionInfo`, the direction of `refractionworldrayinfo`,
the Fresnel cosine `c`, and what `geometry[index]` reads outside the array. -/
structure Uninit (α : Type) where
  index : Nat
  intersection : IntersectionInfo α
  direction : Vector3 α
  c : α
  geometry : Geometry α

/-! ## `raytracer.hpp` -/

section Shader

variable {α : Type} [LinearOrderedField α]

/-- `#define EP 0.00001` -/
def EP : α := 1 / 100000

/-- `#define MAXNUMBER 3` -/
def MAXNUMBER : Int := 3

/-! ## `raycolor` -/

/-- `refract` (lines 32-43): the refraction ray is passed by reference; the model returns
the flag together with the ray, which is left as it was when the flag is false. -/
def refract (M : MathFns α) (ray : RayInfo α) (normal : Vector3 α) (refractiveindex : α)
    (refractionray : RayInfo α) : Bool × RayInfo α :=
  let sign := 1 - refractiveindex * refractiveindex
    * (1 - dot ray.direction normal * dot ray.direction normal)
  if sign > 0 then
    (true, { refractionray with
      direction := normalize M.sqrt
        (refractiveindex • (ray.direction - dot ray.direction normal • normal)
          - M.sqrt sign • normal) })
  else
    (false, refractionray)

/-- The ray moved into the local space of a geometry instance (lines 55-59, 93-97). -/
def local_ray (T : Transforms α) (g : Geometry α) (ray : RayInfo α) : RayInfo α :=
  let inversematrix := T.make_inverse_transformation_matrix g.position g.orientation g.scale
  ⟨T.transform_point inversematrix ray.origin, T.transform_vector inversematrix ray.direction⟩

/-- The geometry scan (lines 53-66): the loop over `geometry[i]`, `i` the loop counter,
carrying the intersection record and `index`. -/
def raycolor_scan (T : Transforms α) (ray : RayInfo α) :
    List (Geometry α) → Nat → IntersectionInfo α × Nat → IntersectionInfo α × Nat
  | [], _, st => st
  | g :: gs, i, st =>
    let check := g.check_geometry (local_ray T g ray) st.1
    raycolor_scan T ray gs (i + 1) (check.2, if check.1 then i else st.2)

/-- The intersection record at the start of the scan (lines 49-52). -/
def initial_intersection (u : Uninit α) : IntersectionInfo α :=
  { u.intersection with t0 := EP, t1 := 1000000 }

/-- The scan of the whole scene (lines 47-66). -/
def scan_scene (T : Transforms α) (u : Uninit α) (scene : Scene α) (ray : RayInfo α) :
    IntersectionInfo α × Nat :=
  raycolor_scan T ray scene.geometries 0 (initial_intersection u, u.index)

/-- World position and world normal of the recorded hit (lines 71-76). -/
def world_intersection (M : MathFns α) (T : Transforms α) (u : Uninit α) (scene : Scene α)
    (st : IntersectionInfo α × Nat) : IntersectionInfo α :=
  let g := scene.geometries.getD st.2 u.geometry
  let transmatrix := T.make_transformation_matrix g.position g.orientation g.scale
  let normalmatrix := T.make_normal_matrix transmatrix
  { st.1 with
    worldposition := T.transform_point transmatrix st.1.localposition
    worldnormal := normalize M.sqrt (T.mul_vector normalmatrix st.1.localnormal) }

/-- The occlusion loop of one shadow ray (lines 91-104): stops at the first instance whose
`check_geometry` returns true. -/
def shadow_hit (T : Transforms α) (shadowworldrayinfo : RayInfo α) :
    List (Geometry α) → IntersectionInfo α → Bool
  | [], _ => false
  | g :: gs, shadowintersection =>
    let check := g.check_geometry (local_ray T g shadowworldrayinfo) shadowintersection
    if check.1 = true then true else shadow_hit T shadowworldrayinfo gs check.2

/-- The shadow ray towards a light (lines 81-83). -/
def shadow_ray (M : MathFns α) (intersection : IntersectionInfo α) (light : PointLight α) :
    RayInfo α :=
  ⟨intersection.worldposition,
    normalize M.sqrt (light.position - intersection.worldposition)⟩

/-- The interval of a shadow ray (lines 85-87). -/
def shadow_intersection (M : MathFns α) (u : Uninit α) (intersection : IntersectionInfo α)
    (light : PointLight α) : IntersectionInfo α :=
  { u.intersection with
    t0 := EP
    t1 := length M.sqrt (light.position - intersection.worldposition) }

/-- The loop over the lights (lines 79-110), carrying `color`. -/
def raycolor_lights (M : MathFns α) (T : Transforms α) (u : Uninit α) (scene : Scene α)
    (intersection : IntersectionInfo α) : List (PointLight α) → Color3 α → Color3 α
  | [], color => color
  | light :: rest, color =>
    let shadowworldrayinfo := shadow_ray M intersection light
    let d := dot intersection.worldnormal shadowworldrayinfo.direction
    if d > 0 then
      if shadow_hit T shadowworldrayinfo scene.geometries
          (shadow_intersection M u intersection light) = false then
        raycolor_lights M T u scene intersection rest
          (color + d • (intersection.material.diffuse * light.color))
      else
        raycolor_lights M T u scene intersection rest color
    else
      raycolor_lights M T u scene intersection rest color

/-- Ambient term plus direct diffuse light (lines 77-110). -/
def direct_color (M : MathFns α) (T : Transforms α) (u : Uninit α) (scene : Scene α)
    (intersection : IntersectionInfo α) : Color3 α :=
  raycolor_lights M T u scene intersection scene.lights
    (intersection.material.ambient * scene.ambient_light)

/-- The reflection direction (lines 113-114). -/
def reflection_direction (sqrt : α → α) (d n : Vector3 α) : Vector3 α :=
  normalize sqrt (d - (2 * dot d n) • n)

/-- The reflection ray (lines 111-114). -/
def reflection_ray (M : MathFns α) (ray : RayInfo α) (intersection : IntersectionInfo α) :
    RayInfo α :=
  ⟨intersection.worldposition,
    reflection_direction M.sqrt ray.direction intersection.worldnormal⟩

/-- Schlick reflectance (lines 145-146). -/
def fresnel (refractive_index c : α) : α :=
  let R0 := (refractive_index - 1) * (refractive_index - 1) / (refractive_index + 1)
    / (refractive_index + 1)
  R0 + (1 - R0) * (1 - c) ^ 5

/-- `raycolor` (lines 45-165) with the bound `MAXNUMBER` as the argument `maxnumber`.
The second component of the result is not part of the program: it counts the longest chain
of nested recursive calls made below this call. -/
def raycolor_traced (M : MathFns α) (T : Transforms α) (u : Uninit α) (maxnumber : Int)
    (scene : Scene α) (ray : RayInfo α) (n : Int) : Color3 α × Nat :=
  let st := scan_scene T u scene ray
  if st.1.t1 ≠ 1000000 then
    let intersection := world_intersection M T u scene st
    let color := direct_color M T u scene intersection
    let reflectionworldrayinfo := reflection_ray M ray intersection
    if intersection.material.refractive_index ≠ 0 then
      let judge := dot ray.direction intersection.worldnormal
      let refractionworldrayinfo : RayInfo α := ⟨intersection.worldposition, u.direction⟩
      let refractiveratio := scene.refractive_index / intersection.material.refractive_index
      if judge < 0 then
        let refracted := refract M ray intersection.worldnormal refractiveratio
          refractionworldrayinfo
        let c := -dot ray.direction intersection.worldnormal
        let R := fresnel intersection.material.refractive_index c
        if n + 1 ≤ maxnumber then
          let a := raycolor_traced M T u maxnumber scene reflectionworldrayinfo (n + 1)
          let b := raycolor_traced M T u maxnumber scene refracted.2 (n + 1)
          (intersection.material.specular * (R • a.1 + (1 - R) • b.1), max a.2 b.2 + 1)
        else
          (color, 0)
      else
        let refracted := refract M ray (-intersection.worldnormal) (1 / refractiveratio)
          refractionworldrayinfo
        if refracted.1 = true then
          let c := dot refracted.2.direction intersection.worldnormal
          let R := fresnel intersection.material.refractive_index c
          if n + 1 ≤ maxnumber then
            let a := raycolor_traced M T u maxnumber scene reflectionworldrayinfo (n + 1)
            let b := raycolor_traced M T u maxnumber scene refracted.2 (n + 1)
            (intersection.material.specular * (R • a.1 + (1 - R) • b.1), max a.2 b.2 + 1)
          else
            (color, 0)
        else
          if n + 1 ≤ maxnumber then
            let a := raycolor_traced M T u maxnumber scene reflectionworldrayinfo (n + 1)
            (intersection.material.specular * a.1, a.2 + 1)
          else
            let R := fresnel intersection.material.refractive_index u.c
            if n + 1 ≤ maxnumber then
              let a := raycolor_traced M T u maxnumber scene reflectionworldrayinfo (n + 1)
              let b := raycolor_traced M T u maxnumber scene refracted.2 (n + 1)
              (intersection.material.specular * (R • a.1 + (1 - R) • b.1), max a.2 b.2 + 1)
            else
              (color, 0)
    else
      if n + 1 ≤ maxnumber then
        let a := raycolor_traced M T u maxnumber scene reflectionworldrayinfo (n + 1)
        (color + intersection.material.specular * a.1, a.2 + 1)
      else
        (color, 0)
  else
    (scene.background_color, 0)
termination_by (maxnumber - n).toNat
decreasing_by all_goals omega

/-- The colour `raycolor(scene, ray, n)` returns. -/
def raycolor (M : MathFns α) (T : Transforms α) (u : Uninit α) (maxnumber : Int)
    (scene : Scene α) (ray : RayInfo α) (n : Int) : Color3 α :=
  (raycolor_traced M T u maxnumber scene ray n).1

/-- The longest chain of nested recursive calls below the call `raycolor(scene, ray, n)`. -/
def raycolor_nesting (M : MathFns α) (T : Transforms α) (u : Uninit α) (maxnumber : Int)
    (scene : Scene α) (ray : RayInfo α) (n : Int) : Nat :=
  (raycolor_traced M T u maxnumber scene ray n).2

/-- The contract the specification gives a geometry instance, for one local ray: the
instance has at most one hit distance `dist` along the ray; `check_geometry` returns true
and sets `t1` to it exactly when it lies in `[t0, t1)` of the record it is given, and
otherwise returns false and leaves the record as it is. -/
def check_contract (g : Geometry α) (r : RayInfo α) (dist : Option α) : Prop :=
  ∀ isect : IntersectionInfo α,
    match dist with
    | some t =>
      if isect.t0 ≤ t ∧ t < isect.t1 then
        (g.check_geometry r isect).1 = true ∧ (g.check_geometry r isect).2.t1 = t
          ∧ (g.check_geometry r isect).2.t0 = isect.t0
      else g.check_geometry r isect = (false, isect)
    | none => g.check_geometry r isect = (false, isect)

/-- What the specification asks of the scan, given the hit distance `dist k` of each of
the `count` instances: a hit is reported (`t1` differs from 1000000) exactly when some
distance lies in `[EP, 1000000)`; then `t1` is the least such distance and `index` is the
first instance that has it. -/
def nearest_hit (dist : Nat → Option α) (count : Nat) (st : IntersectionInfo α × Nat) :
    Prop :=
  (st.1.t1 ≠ 1000000 ↔
    ∃ k, k < count ∧ ∃ t, dist k = some t ∧ EP ≤ t ∧ t < 1000000) ∧
  (st.1.t1 ≠ 1000000 →
    (∀ k, k < count → ∀ t, dist k = some t → EP ≤ t → t < 1000000 → st.1.t1 ≤ t) ∧
    st.2 < count ∧ dist st.2 = some st.1.t1 ∧ EP ≤ st.1.t1 ∧ st.1.t1 < 1000000 ∧
    ∀ j, j < st.2 → dist j ≠ some st.1.t1)

/-- The intersection record after the scan and the world transform (lines 47-76). -/
def hit_record (M : MathFns α) (T : Transforms α) (u : Uninit α) (scene : Scene α)
    (ray : RayInfo α) : IntersectionInfo α :=
  world_intersection M T u scene (scan_scene T u scene ray)

/-- The call of `refract` that `raycolor` makes at a dielectric hit (lines 119-133): with
the world normal and the ratio `scene index / material index` on the entering side
(`dot(d, n) < 0`), with the negated normal and the reciprocal ratio on the exiting side.
The refraction ray handed in has its origin set and its direction not assigned. -/
def dielectric_refract (M : MathFns α) (u : Uninit α) (scene : Scene α) (ray : RayInfo α)
    (intersection : IntersectionInfo α) : Bool × RayInfo α :=
  if dot ray.direction intersection.worldnormal < 0 then
    refract M ray intersection.worldnormal
      (scene.refractive_index / intersection.material.refractive_index)
      ⟨intersection.worldposition, u.direction⟩
  else
    refract M ray (-intersection.worldnormal)
      (1 / (scene.refractive_index / intersection.material.refractive_index))
      ⟨intersection.worldposition, u.direction⟩

/-- The Fresnel cosine `c` that `raycolor` assigns at a dielectric hit where the blend is
evaluated (line 129 on the entering side, line 135 on the exiting side). -/
def dielectric_cosine (M : MathFns α) (u : Uninit α) (scene : Scene α) (ray : RayInfo α)
    (intersection : IntersectionInfo α) : α :=
  if dot ray.direction intersection.worldnormal < 0 then
    -dot ray.direction intersection.worldnormal
  else
    dot (dielectric_refract M u scene ray intersection).2.direction intersection.worldnormal

/-- Modelled from the spec: `toLocal(ray) = T⁻¹·ray` of the Transform Resolver, the ray
with the given origin and direction expressed in the local space of the instance `g`. -/
def spec_to_local (T : Transforms α) (g : Geometry α) (origin direction : Vector3 α) :
    RayInfo α :=
  ⟨T.transform_point
      (T.make_inverse_transformation_matrix g.position g.orientation g.scale) origin,
    T.transform_vector
      (T.make_inverse_transformation_matrix g.position g.orientation g.scale) direction⟩

/-- The specification's `lightDir`: the unit vector from the world hit point towards the
light. -/
def spec_light_dir (M : MathFns α) (intersection : IntersectionInfo α)
    (light : PointLight α) : Vector3 α :=
  normalize M.sqrt (light.position - intersection.worldposition)

/-- The specification's `distanceToLight`: the distance from the world hit point to the
light. -/
def spec_light_distance (M : MathFns α) (intersection : IntersectionInfo α)
    (light : PointLight α) : α :=
  length M.sqrt (light.position - intersection.worldposition)

/-- What the specification asks for a light to contribute at a hit: the surface faces it
(`d = dot(worldnormal, lightDir) > 0`) and no geometry instance, asked with the shadow ray
from the hit point towards the light in its local space and with the interval
`[EP, distanceToLight]`, reports a hit. Each instance is asked on its own, with that
interval; the fields of the record other than the interval are the unassigned ones. -/
def light_reaches (M : MathFns α) (T : Transforms α) (u : Uninit α) (scene : Scene α)
    (intersection : IntersectionInfo α) (light : PointLight α) : Bool :=
  decide (0 < dot intersection.worldnormal (spec_light_dir M intersection light)) &&
    scene.geometries.all (fun g =>
      !(g.check_geometry
        (spec_to_local T g intersection.worldposition (spec_light_dir M intersection light))
        { u.intersection with
          t0 := EP
          t1 := spec_light_distance M intersection light }).1)

/-- What the specification calls ambient plus direct diffuse: `material.ambient *
ambient_light` plus, for each light that reaches the hit, `material.diffuse * light.color * d`
with `d = dot(worldnormal, lightDir)`. -/
def ambient_plus_diffuse (M : MathFns α) (T : Transforms α) (u : Uninit α) (scene : Scene α)
    (intersection : IntersectionInfo α) : Color3 α :=
  ((scene.lights.filter (light_reaches M T u scene intersection)).map
    (fun light => dot intersection.worldnormal (spec_light_dir M intersection light)
      • (intersection.material.diffuse * light.color))).foldl (· + ·)
    (intersection.material.ambient * scene.ambient_light)

end Shader

/-! ## `trace_pixel` -/

section Camera

variable {α : Type} [LinearOrderedField α]

/-- The number of values of `size_t`. -/
def SIZE_MOD : Nat := 2 ^ 64

/-- The offset `x0` of line 185 (and `y0` of line 186): `(real_t)x - width/2 + 0.5`, where
`width/2` divides two `size_t` values and so is the integer quotient. -/
def pixel_offset (x width : Nat) : α := (x : α) - ((width / 2 : Nat) : α) + 1 / 2

/-- The pixel size of line 182 (and of line 183, where the extent carries the aspect ratio
and the dimension is the width): `extent / (height/2)`, again with the integer quotient of
the two `size_t` values. -/
def pixel_size (extent : α) (height : Nat) : α := extent / ((height / 2 : Nat) : α)

/-- The primary ray of a pixel (lines 174-190). -/
def primary_ray (M : MathFns α) (scene : Scene α) (x y width height : Nat) : RayInfo α :=
  let camposition := scene.camera.position
  let camdirection := scene.camera.direction
  let camup := scene.camera.up
  let camdegree := scene.camera.fov_radians
  let camratio := scene.camera.aspect_ratio
  let camdistance := scene.camera.near_clip
  let camright := normalize M.sqrt (cross camdirection camup)
  let pixelheight := pixel_size (camdistance * M.tan (camdegree / 2)) height
  let pixelwidth := pixel_size (camdistance * M.tan (camdegree / 2) * camratio) width
  let x0 : α := pixel_offset x width
  let y0 : α := pixel_offset y height
  let raydirection := normalize M.sqrt
    (camdistance • camdirection + (y0 * pixelheight) • camup + (x0 * pixelwidth) • camright)
  ⟨camposition, raydirection⟩

/-- `trace_pixel` (lines 169-192). The two assertions `x < width` and `y < height` hold at
every call the driver makes and are not part of the value. -/
def trace_pixel (M : MathFns α) (T : Transforms α) (u : Uninit α) (scene : Scene α)
    (x y width height : Nat) : Color3 α :=
  raycolor M T u MAXNUMBER scene (primary_ray M scene x y width height) 0

end Camera

/-! ## The driver `Raytracer` -/

section Driver

variable {α : Type} [LinearOrderedField α]

/-- The members of `class Raytracer`. -/
structure Raytracer (α : Type) where
  scene : Scene α
  width : Nat
  height : Nat
  current_row : Nat

/-- `Raytracer::initialize` (lines 21-30): the returned flag and the driver afterwards. -/
def Raytracer.initialize (self : Raytracer α) (scene : Scene α) (width height : Nat) :
    Bool × Raytracer α :=
  (true, { self with scene := scene, width := width, height := height, current_row := 0 })

/-- The image buffer `unsigned char *buffer`, one byte per index, together with the list
of the offsets at which a pixel has been stored (most recent first). The list is not part
of the program: it records the writes. -/
structure Canvas where
  buffer : Nat → Nat
  writes : List Nat

/-- `color.to_array(&buffer[offset])`: the four bytes `bytes 0 .. bytes 3` stored from
`offset` on. -/
def Canvas.store (cv : Canvas) (offset : Nat) (bytes : Nat → Nat) : Canvas :=
  ⟨fun j => if offset ≤ j ∧ j < offset + 4 then bytes (j - offset) else cv.buffer j,
    offset :: cv.writes⟩

/-- The offset `4 * (current_row * width + x)` of line 223, computed in `size_t`. -/
def cell_offset (current_row width x : Nat) : Nat :=
  (4 * (current_row * width + x)) % SIZE_MOD

/-- The loop over the pixels of the current row (lines 220-224). `to_array` is
`Color3::to_array` of `math/color.hpp`, taken as a parameter: the four bytes of a colour. -/
def raytrace_row (M : MathFns α) (T : Transforms α) (u : Uninit α)
    (to_array : Color3 α → Nat → Nat) (self : Raytracer α) (cv : Canvas) : Canvas :=
  (List.range self.width).foldl
    (fun cv x =>
      cv.store (cell_offset self.current_row self.width x)
        (to_array (trace_pixel M T u self.scene x self.current_row self.width self.height)))
    cv

/-- The state of the loop of `raytrace`: the driver, the buffer and the local `is_done`. -/
structure LoopState (α : Type) where
  tracer : Raytracer α
  canvas : Canvas
  is_done : Bool

/-- The loop of `raytrace` (lines 209-225). The first argument bounds how often the loop
condition `!max_time || end_time > SDL_GetTicks()` is found true. The flag returned with
the state tells whether the loop was left by `break` (true) or because that bound was
reached (false). -/
def raytrace_loop (M : MathFns α) (T : Transforms α) (u : Uninit α)
    (to_array : Color3 α → Nat → Nat) : Nat → LoopState α → LoopState α × Bool
  | 0, s => (s, false)
  | k + 1, s =>
    if s.tracer.current_row = s.tracer.height then
      ({ s with is_done := true }, true)
    else
      raytrace_loop M T u to_array k
        { tracer := { s.tracer with current_row := (s.tracer.current_row + 1) % SIZE_MOD }
          canvas := raytrace_row M T u to_array s.tracer s.canvas
          is_done := false }

/-- `Raytracer::raytrace` (lines 195-232).

* `max_time = none` is the null pointer: the loop condition is always true, and the call
  returns when the loop is left by `break`; `fuel` bounds the number of iterations and the
  result is `none` when it does not suffice.
* `max_time = some ticks` is a time budget under which the clock lets the loop condition
  hold exactly `ticks` times before the deadline has passed (fewer tests are made when the
  loop is left by `break` first).
* `is_done` is the content of the local `is_done` at its declaration (line 200), where it
  is not assigned.

The result is the returned flag, the driver and the buffer after the call. -/
def Raytracer.raytrace (M : MathFns α) (T : Transforms α) (u : Uninit α)
    (to_array : Color3 α → Nat → Nat) (self : Raytracer α) (cv : Canvas)
    (max_time : Option Nat) (is_done : Bool) (fuel : Nat) :
    Option (Bool × Raytracer α × Canvas) :=
  match max_time with
  | some ticks =>
    let out := raytrace_loop M T u to_array ticks ⟨self, cv, is_done⟩
    some (out.1.is_done, out.1.tracer, out.1.canvas)
  | none =>
    let out := raytrace_loop M T u to_array fuel ⟨self, cv, is_done⟩
    if out.2 = true then some (out.1.is_done, out.1.tracer, out.1.canvas) else none

/-- A sequence of budgeted calls of `raytrace` on the same buffer, each with its number of
clock ticks and the content of its unassigned `is_done`. The state is the flag returned by
the latest call, the driver and the buffer. -/
def raytrace_calls (M : MathFns α) (T : Transforms α) (u : Uninit α)
    (to_array : Color3 α → Nat → Nat) :
    List (Nat × Bool) → Bool × Raytracer α × Canvas →
      Option (Bool × Raytracer α × Canvas)
  | [], st => some st
  | call :: rest, st =>
    (Raytracer.raytrace M T u to_array st.2.1 st.2.2 (some call.1) call.2 0).bind
      (raytrace_calls M T u to_array rest)

/-- The buffer in which the rows `0 .. m - 1` of the image have been stored, row after row
and from left to right within a row: what the specification asks of `m` processed rows. -/
def rendered_rows (M : MathFns α) (T : Transforms α) (u : Uninit α)
    (to_array : Color3 α → Nat → Nat) (scene : Scene α) (width height : Nat) :
    Nat → Canvas → Canvas
  | 0, cv => cv
  | m + 1, cv =>
    raytrace_row M T u to_array ⟨scene, width, height, m⟩
      (rendered_rows M T u to_array scene width height m cv)

end Driver

/-! ## Concrete data for evaluating the definitions (rational scalars) -/

namespace Sample

/-- A square root that is exact on the squares used in the examples. -/
def sqrt (q : ℚ) : ℚ :=
  if q = 0 then 0 else if q = 1 then 1 else if q = 4 then 2 else if q = 9 then 3 else 1

def math : MathFns ℚ := ⟨sqrt, fun _ => 1⟩

def identity4 : Matrix4 ℚ := ⟨fun i j => if i = j then 1 else 0⟩

def identity3 : Matrix3 ℚ := ⟨fun i j => if i = j then 1 else 0⟩

/-- Transforms of instances that all sit at the origin, unrotated and unscaled. -/
def transforms : Transforms ℚ :=
  { make_inverse_transformation_matrix := fun _ _ _ => identity4
    make_transformation_matrix := fun _ _ _ => identity4
    make_normal_matrix := fun _ => identity3
    transform_point := fun _ p => p
    transform_vector := fun _ v => v
    mul_vector := fun _ v => v }

def origin : Vector3 ℚ := ⟨0, 0, 0⟩

def black : Color3 ℚ := ⟨0, 0, 0⟩

def white : Color3 ℚ := ⟨1, 1, 1⟩

def material (specular : Color3 ℚ) (refractive_index : ℚ) : Material ℚ :=
  ⟨white, white, specular, refractive_index⟩

def record : IntersectionInfo ℚ :=
  ⟨0, 0, origin, origin, origin, origin, material black 0⟩

/-- An instance no ray hits. -/
def miss : Geometry ℚ :=
  ⟨origin, ⟨1, 0, 0, 0⟩, ⟨1, 1, 1⟩, fun _ isect => (false, isect)⟩

/-- An instance every ray hits at distance `t`, on a surface with normal `(0, 0, 1)`. -/
def wall (t : ℚ) (m : Material ℚ) : Geometry ℚ :=
  ⟨origin, ⟨1, 0, 0, 0⟩, ⟨1, 1, 1⟩, fun ray isect =>
    if isect.t0 ≤ t ∧ t < isect.t1 then
      (true, { isect with
        t1 := t
        localposition := ray.origin + t • ray.direction
        localnormal := ⟨0, 0, 1⟩
        material := m })
    else (false, isect)⟩

def uninit : Uninit ℚ := ⟨0, record, origin, 0, miss⟩

def camera : Camera ℚ := ⟨origin, ⟨0, 0, -1⟩, ⟨0, 1, 0⟩, 1, 1, 1⟩

def scene (geometries : List (Geometry ℚ)) (lights : List (PointLight ℚ)) : Scene ℚ :=
  ⟨geometries, lights, ⟨1, 1, 1⟩, ⟨0, 0, 1⟩, 1, camera⟩

/-- A ray from the origin along the negative z axis. -/
def ray : RayInfo ℚ := ⟨origin, ⟨0, 0, -1⟩⟩

/-- Four instances with the hit distances 5, 2, none and 2. -/
def stack_scene : Scene ℚ :=
  scene [wall 5 (material black 0), wall 2 (material white 0), miss, wall 2 (material black 0)]
    []

/-- The hit distances of the instances of `stack_scene`. -/
def stack_dist (k : Nat) : Option ℚ := [some 5, some 2, none, some 2].getD k none

/-- One opaque, fully mirroring wall that every ray hits at distance 1; no lights. -/
def mirror_scene : Scene ℚ := scene [wall 1 (material white 0)] []

/-- One opaque wall without specular reflectance that every ray hits at distance 1, and a
white light at the origin. -/
def matte_scene : Scene ℚ := scene [wall 1 (material black 0)] [⟨origin, white⟩]

/-- One dielectric wall (refractive index 2, specular reflectance white) that every ray
hits at distance 1, in a medium of index 1; no lights. -/
def glass_scene : Scene ℚ := scene [wall 1 (material white 2)] []

/-- An instance that the rays going down (`direction.z < 0`) hit at distance 1, on a surface
with normal `(0, 0, 1)`, and that the other rays miss. -/
def floor (m : Material ℚ) : Geometry ℚ :=
  ⟨origin, ⟨1, 0, 0, 0⟩, ⟨1, 1, 1⟩, fun ray isect =>
    if ray.direction.z < 0 ∧ isect.t0 ≤ 1 ∧ 1 < isect.t1 then
      (true, { isect with
        t1 := 1
        localposition := ray.origin + (1 : ℚ) • ray.direction
        localnormal := ⟨0, 0, 1⟩
        material := m })
    else (false, isect)⟩

/-- A dielectric floor of refractive index 1 (specular reflectance white) in a medium of
index 2, background colour (0, 0, 1); no lights. -/
def bubble_scene : Scene ℚ :=
  ⟨[floor (material white 1)], [], ⟨1, 1, 1⟩, ⟨0, 0, 1⟩, 2, camera⟩

/-- A ray of unit direction that meets the floor at a flat angle. -/
def grazing_ray : RayInfo ℚ := ⟨origin, ⟨3 / 5, 0, -4 / 5⟩⟩

/-- An instance that never reports a hit but, handed a record whose `t1` is below 1000000
(as the record of a shadow ray is), sets `t1` to 0: it does not leave the record as it was. -/
def spoiler : Geometry ℚ :=
  ⟨origin, ⟨1, 0, 0, 0⟩, ⟨1, 1, 1⟩, fun _ isect =>
    if isect.t1 < 1000000 then (false, { isect with t1 := 0 }) else (false, isect)⟩

/-- The spoiler followed by an opaque wall without specular reflectance that every ray hits
at distance 1, and a white light at (0, 0, 1). -/
def spoiled_scene : Scene ℚ :=
  scene [spoiler, wall 1 (material black 0)] [⟨⟨0, 0, 1⟩, white⟩]

/-- Unassigned locals whose refraction direction holds `direction`. -/
def uninit_towards (direction : Vector3 ℚ) : Uninit ℚ := ⟨0, record, direction, 0, miss⟩

end Sample

/-- A scene that has only a camera: at the origin, looking along the negative z axis, with
the y axis up, aspect ratio 1 and the image plane at distance 1. -/
def axis_scene {α : Type} [LinearOrderedField α] (fov : α) : Scene α :=
  ⟨[], [], ⟨0, 0, 0⟩, ⟨0, 0, 0⟩, 1,
    ⟨⟨0, 0, 0⟩, ⟨0, 0, -1⟩, ⟨0, 1, 0⟩, fov, 1, 1⟩⟩

/-! ## Theorems -/

section AlgebraFacts

variable {α : Type} [LinearOrderedField α]

theorem vector_add_def (a b : Vector3 α) : a + b = ⟨a.x + b.x, a.y + b.y, a.z + b.z⟩ := rfl

theorem vector_sub_def (a b : Vector3 α) : a - b = ⟨a.x - b.x, a.y - b.y, a.z - b.z⟩ := rfl

theorem vector_neg_def (a : Vector3 α) : -a = ⟨-a.x, -a.y, -a.z⟩ := rfl

theorem vector_smul_def (s : α) (a : Vector3 α) : s • a = ⟨s * a.x, s * a.y, s * a.z⟩ := rfl

theorem color_add_def (a b : Color3 α) : a + b = ⟨a.r + b.r, a.g + b.g, a.b + b.b⟩ := rfl

theorem color_mul_def (a b : Color3 α) : a * b = ⟨a.r * b.r, a.g * b.g, a.b * b.b⟩ := rfl

theorem color_smul_def (s : α) (a : Color3 α) : s • a = ⟨s * a.r, s * a.g, s * a.b⟩ := rfl

end AlgebraFacts

section ShaderFacts

variable {α : Type} [LinearOrderedField α]

theorem raycolor_miss (M : MathFns α) (T : Transforms α) (u : Uninit α) (maxnumber : Int)
    (scene : Scene α) (ray : RayInfo α) (n : Int)
    (h : (scan_scene T u scene ray).1.t1 = 1000000) :
    raycolor_traced M T u maxnumber scene ray n = (scene.background_color, 0) := by
  rw [raycolor_traced]
  simp [h]

theorem raycolor_scan_spec (T : Transforms α) (ray : RayInfo α) (gs : List (Geometry α)) :
    ∀ (dist : Nat → Option α) (i : Nat) (st : IntersectionInfo α × Nat),
      (∀ k (hk : k < gs.length), check_contract (gs.get ⟨k, hk⟩)
        (local_ray T (gs.get ⟨k, hk⟩) ray) (dist k)) →
      (raycolor_scan T ray gs i st).1.t0 = st.1.t0 ∧
      (raycolor_scan T ray gs i st).1.t1 ≤ st.1.t1 ∧
      (∀ k, k < gs.length → ∀ t, dist k = some t → st.1.t0 ≤ t →
        (raycolor_scan T ray gs i st).1.t1 ≤ t) ∧
      (((raycolor_scan T ray gs i st).1.t1 = st.1.t1 ∧ (raycolor_scan T ray gs i st).2 = st.2) ∨
        ((raycolor_scan T ray gs i st).1.t1 < st.1.t1 ∧
          ∃ k, k < gs.length ∧ (raycolor_scan T ray gs i st).2 = i + k ∧
            dist k = some (raycolor_scan T ray gs i st).1.t1 ∧
            st.1.t0 ≤ (raycolor_scan T ray gs i st).1.t1 ∧
            ∀ j, j < k → dist j ≠ some (raycolor_scan T ray gs i st).1.t1)) := by
  induction gs with
  | nil =>
    intro dist i st _
    simp [raycolor_scan]
  | cons g gs ih =>
    intro dist i st hc
    have hg0 : check_contract g (local_ray T g ray) (dist 0) := hc 0 (Nat.succ_pos _)
    have hg := hg0 st.1
    have hrest : ∀ k (hk : k < gs.length), check_contract (gs.get ⟨k, hk⟩)
        (local_ray T (gs.get ⟨k, hk⟩) ray) (dist (k + 1)) :=
      fun k hk => hc (k + 1) (Nat.succ_lt_succ hk)
    rw [raycolor_scan]
    -- the record and index handed to the rest of the scan
    generalize hst1 : ((g.check_geometry (local_ray T g ray) st.1).2,
      if (g.check_geometry (local_ray T g ray) st.1).1 = true then i else st.2) = st1
    obtain ⟨ih0, ih1, ih2, ih3⟩ := ih (fun k => dist (k + 1)) (i + 1) st1 hrest
    by_cases hin : ∃ t, dist 0 = some t ∧ st.1.t0 ≤ t ∧ t < st.1.t1
    · -- the instance narrows the interval to its distance `t`
      obtain ⟨t, hd, hlo, hhi⟩ := hin
      rw [hd] at hg
      simp only [hlo, hhi, and_self, if_true] at hg
      obtain ⟨hchk, ht1, ht0⟩ := hg
      have e1 : st1.1.t1 = t := by rw [← hst1]; exact ht1
      have e0 : st1.1.t0 = st.1.t0 := by rw [← hst1]; exact ht0
      have e2 : st1.2 = i := by rw [← hst1]; simp [hchk]
      refine ⟨by rw [ih0, e0], by rw [e1] at ih1; exact le_trans ih1 (le_of_lt hhi), ?_, ?_⟩
      · intro k hk t2 hd2 hlo2
        cases k with
        | zero =>
          rw [hd] at hd2
          have : t = t2 := Option.some.inj hd2
          rw [← this]
          rw [e1] at ih1
          exact ih1
        | succ k =>
          exact ih2 k (Nat.lt_of_succ_lt_succ hk) t2 hd2 (by rw [e0]; exact hlo2)
      · right
        rcases ih3 with ⟨h31, h32⟩ | ⟨h31, k, hk, hidx, hdk, hlok, hmin⟩
        · refine ⟨by rw [h31, e1]; exact hhi, 0, Nat.succ_pos _, by rw [h32, e2]; rfl,
            by rw [h31, e1]; exact hd, by rw [h31, e1]; exact hlo, ?_⟩
          intro j hj
          exact absurd hj (Nat.not_lt_zero j)
        · refine ⟨lt_trans (by rw [e1] at h31; exact h31) hhi, k + 1, Nat.succ_lt_succ hk,
            by rw [hidx]; omega, hdk, by rw [e0] at hlok; exact hlok, ?_⟩
          intro j hj
          cases j with
          | zero =>
            rw [hd]
            intro hcontra
            have : t = (raycolor_scan T ray gs (i + 1) st1).1.t1 := Option.some.inj hcontra
            rw [e1] at h31
            exact absurd this (ne_of_gt h31)
          | succ j => exact hmin j (Nat.lt_of_succ_lt_succ hj)
    · -- the instance leaves the record as it is
      have hsame : g.check_geometry (local_ray T g ray) st.1 = (false, st.1) := by
        cases hd : dist 0 with
        | none => rw [hd] at hg; exact hg
        | some t =>
          rw [hd] at hg
          have hnot : ¬ (st.1.t0 ≤ t ∧ t < st.1.t1) := fun h => hin ⟨t, hd, h.1, h.2⟩
          simpa only [hnot, if_false] using hg
      have e : st1 = st := by rw [← hst1, hsame]; simp
      rw [e] at ih0 ih1 ih2 ih3 ⊢
      refine ⟨ih0, ih1, ?_, ?_⟩
      · intro k hk t2 hd2 hlo2
        cases k with
        | zero =>
          have : ¬ t2 < st.1.t1 := fun h => hin ⟨t2, hd2, hlo2, h⟩
          exact le_trans ih1 (not_lt.mp this)
        | succ k => exact ih2 k (Nat.lt_of_succ_lt_succ hk) t2 hd2 hlo2
      · rcases ih3 with h3 | ⟨h31, k, hk, hidx, hdk, hlok, hmin⟩
        · exact Or.inl h3
        · right
          refine ⟨h31, k + 1, Nat.succ_lt_succ hk, by rw [hidx]; omega, hdk, hlok, ?_⟩
          intro j hj
          cases j with
          | zero =>
            intro hcontra
            exact hin ⟨_, hcontra, hlok, h31⟩
          | succ j => exact hmin j (Nat.lt_of_succ_lt_succ hj)

/-- C5: if every instance keeps the contract of `check_geometry` for this ray (true and
`t1` set to its hit distance exactly when that distance lies in `[t0, t1)`, otherwise false
and the record unchanged), the scan of `raycolor` finds the nearest hit: a hit is reported
iff some instance has a distance in `[EP, 1000000)`, the final `t1` is the least of those
distances, and `index` is the first instance in list order that attains it. -/
theorem raycolor_scan_nearest (T : Transforms α) (u : Uninit α) (scene : Scene α)
    (ray : RayInfo α) (dist : Nat → Option α)
    (hc : ∀ k (hk : k < scene.geometries.length),
      check_contract (scene.geometries.get ⟨k, hk⟩)
        (local_ray T (scene.geometries.get ⟨k, hk⟩) ray) (dist k)) :
    nearest_hit dist scene.geometries.length (scan_scene T u scene ray) := by
  obtain ⟨_, h1, h2, h3⟩ := raycolor_scan_spec T ray scene.geometries dist 0
    (initial_intersection u, u.index) hc
  have ht0 : (initial_intersection u).t0 = (EP : α) := rfl
  have ht1 : (initial_intersection u).t1 = (1000000 : α) := rfl
  simp only [ht0, ht1] at h1 h2 h3
  unfold nearest_hit scan_scene
  constructor
  · constructor
    · intro hne
      rcases h3 with ⟨h31, _⟩ | ⟨h31, k, hk, _, hdk, hlok, _⟩
      · exact absurd h31 hne
      · exact ⟨k, hk, _, hdk, hlok, h31⟩
    · rintro ⟨k, hk, t, hd, hlo, hhi⟩
      exact ne_of_lt (lt_of_le_of_lt (h2 k hk t hd hlo) hhi)
  · intro hne
    rcases h3 with ⟨h31, _⟩ | ⟨h31, k, hk, hidx, hdk, hlok, hmin⟩
    · exact absurd h31 hne
    · have hidx1 : (raycolor_scan T ray scene.geometries 0 (initial_intersection u, u.index)).2
          = k := by rw [hidx]; omega
      refine ⟨fun j hj t hd hlo _ => h2 j hj t hd hlo, ?_, ?_, hlok, h31, ?_⟩
      · rw [hidx1]; exact hk
      · rw [hidx1]; exact hdk
      · rw [hidx1]; exact hmin

theorem wall_contract (t : ℚ) (m : Material ℚ) (r : RayInfo ℚ) :
    check_contract (Sample.wall t m) r (some t) := by
  intro isect
  by_cases h : isect.t0 ≤ t ∧ t < isect.t1 <;> simp [Sample.wall, h]

theorem miss_contract (r : RayInfo ℚ) : check_contract Sample.miss r none := by
  intro isect
  simp [Sample.miss]

/-- C5 at the four sample instances with distances 5, 2, none and 2: they keep the
contract, and the scan finds the nearest hit. -/
theorem raycolor_scan_nearest_witness :
    (∀ k (hk : k < Sample.stack_scene.geometries.length),
      check_contract (Sample.stack_scene.geometries.get ⟨k, hk⟩)
        (local_ray Sample.transforms (Sample.stack_scene.geometries.get ⟨k, hk⟩) Sample.ray)
        (Sample.stack_dist k)) ∧
      nearest_hit Sample.stack_dist Sample.stack_scene.geometries.length
        (scan_scene Sample.transforms Sample.uninit Sample.stack_scene Sample.ray) :=
  have hc : ∀ k (hk : k < Sample.stack_scene.geometries.length),
      check_contract (Sample.stack_scene.geometries.get ⟨k, hk⟩)
        (local_ray Sample.transforms (Sample.stack_scene.geometries.get ⟨k, hk⟩) Sample.ray)
        (Sample.stack_dist k) := by
    intro k hk
    have hk4 : k < 4 := hk
    interval_cases k
    · exact wall_contract 5 _ _
    · exact wall_contract 2 _ _
    · exact miss_contract _
    · exact wall_contract 2 _ _
  ⟨hc, raycolor_scan_nearest Sample.transforms Sample.uninit Sample.stack_scene Sample.ray
    Sample.stack_dist hc⟩

/-- The scan of the four sample instances with distances 5, 2, none, 2 reports the second
instance (index 1), the first of the two at the least distance 2. -/
theorem raycolor_scan_sample_value :
    (scan_scene Sample.transforms Sample.uninit Sample.stack_scene Sample.ray).2 = 1 ∧
      (scan_scene Sample.transforms Sample.uninit Sample.stack_scene Sample.ray).1.t1 = 2 := by
  have h5 : (EP : ℚ) ≤ 5 := by norm_num [EP]
  have h2 : (EP : ℚ) ≤ 2 := by norm_num [EP]
  norm_num [scan_scene, raycolor_scan, initial_intersection, Sample.stack_scene, Sample.scene,
    Sample.wall, Sample.miss, h5, h2]

/-! ### The opaque branch -/

theorem raycolor_traced_opaque_hit (M : MathFns α) (T : Transforms α) (u : Uninit α)
    (maxnumber : Int) (scene : Scene α) (ray : RayInfo α) (n : Int)
    (hit : (hit_record M T u scene ray).t1 ≠ 1000000)
    (hrefr : (hit_record M T u scene ray).material.refractive_index = 0) :
    raycolor_traced M T u maxnumber scene ray n
      = if n + 1 ≤ maxnumber then
          (direct_color M T u scene (hit_record M T u scene ray)
            + (hit_record M T u scene ray).material.specular
              * (raycolor_traced M T u maxnumber scene
                  (reflection_ray M ray (hit_record M T u scene ray)) (n + 1)).1,
            (raycolor_traced M T u maxnumber scene
              (reflection_ray M ray (hit_record M T u scene ray)) (n + 1)).2 + 1)
        else (direct_color M T u scene (hit_record M T u scene ray), 0) := by
  have hit1 : (scan_scene T u scene ray).1.t1 ≠ 1000000 := hit
  have hop1 : (world_intersection M T u scene (scan_scene T u scene ray)).material.refractive_index
      = 0 := hrefr
  rw [raycolor_traced]
  simp only [hit1, hop1, ne_eq, not_false_eq_true, not_true_eq_false, if_true, if_false,
    hit_record]

theorem mirror_scene_hit (ray : RayInfo ℚ) :
    (hit_record Sample.math Sample.transforms Sample.uninit Sample.mirror_scene ray).t1 = 1 ∧
      (hit_record Sample.math Sample.transforms Sample.uninit Sample.mirror_scene ray).material
        = Sample.material Sample.white 0 := by
  have h : (EP : ℚ) ≤ 1 ∧ (1 : ℚ) < 1000000 := by norm_num [EP]
  simp [hit_record, world_intersection, scan_scene, raycolor_scan, initial_intersection,
    Sample.mirror_scene, Sample.scene, Sample.wall, h]

theorem mirror_scene_direct (isect : IntersectionInfo ℚ)
    (hm : isect.material = Sample.material Sample.white 0) :
    direct_color Sample.math Sample.transforms Sample.uninit Sample.mirror_scene isect
      = ⟨1, 1, 1⟩ := by
  simp only [direct_color, Sample.mirror_scene, Sample.scene, raycolor_lights, hm,
    Sample.material, Sample.white]
  show (⟨1 * 1, 1 * 1, 1 * 1⟩ : Color3 ℚ) = ⟨1, 1, 1⟩
  norm_num

/-- C10, as the code has it: on a hit on an opaque material, `raycolor` at depth `n` is
ambient plus direct diffuse plus `material.specular * raycolor(reflectionRay, n + 1)` when
`n < MAXNUMBER` (depth 0, 1, 2), and ambient plus direct diffuse alone when
`n >= MAXNUMBER`: the test of line 154 is made after `n++`. -/
theorem raycolor_opaque_depth_branch (M : MathFns α) (T : Transforms α) (u : Uninit α)
    (scene : Scene α) (ray : RayInfo α) (n : Int)
    (hit : (hit_record M T u scene ray).t1 ≠ 1000000)
    (hrefr : (hit_record M T u scene ray).material.refractive_index = 0) :
    (n < MAXNUMBER →
      raycolor M T u MAXNUMBER scene ray n
        = direct_color M T u scene (hit_record M T u scene ray)
          + (hit_record M T u scene ray).material.specular
            * raycolor M T u MAXNUMBER scene
                (reflection_ray M ray (hit_record M T u scene ray)) (n + 1)) ∧
      (MAXNUMBER ≤ n →
        raycolor M T u MAXNUMBER scene ray n
          = direct_color M T u scene (hit_record M T u scene ray)) := by
  constructor
  · intro hn
    have hn1 : n + 1 ≤ MAXNUMBER := by omega
    simp only [raycolor, raycolor_traced_opaque_hit M T u MAXNUMBER scene ray n hit hrefr, hn1,
      if_true]
  · intro hn
    have hn1 : ¬ (n + 1 ≤ MAXNUMBER) := by omega
    simp only [raycolor, raycolor_traced_opaque_hit M T u MAXNUMBER scene ray n hit hrefr, hn1,
      if_false]

/-- C10 at the mirroring wall: the hit is opaque; at depth 2 the recursive term is added,
at depth 3 it is not. -/
theorem raycolor_opaque_depth_branch_witness :
    (hit_record Sample.math Sample.transforms Sample.uninit Sample.mirror_scene Sample.ray).t1
        ≠ 1000000 ∧
      (hit_record Sample.math Sample.transforms Sample.uninit Sample.mirror_scene
        Sample.ray).material.refractive_index = 0 ∧
      raycolor Sample.math Sample.transforms Sample.uninit MAXNUMBER Sample.mirror_scene
          Sample.ray 2
        = direct_color Sample.math Sample.transforms Sample.uninit Sample.mirror_scene
            (hit_record Sample.math Sample.transforms Sample.uninit Sample.mirror_scene
              Sample.ray)
          + (hit_record Sample.math Sample.transforms Sample.uninit Sample.mirror_scene
              Sample.ray).material.specular
            * raycolor Sample.math Sample.transforms Sample.uninit MAXNUMBER
                Sample.mirror_scene
                (reflection_ray Sample.math Sample.ray
                  (hit_record Sample.math Sample.transforms Sample.uninit Sample.mirror_scene
                    Sample.ray)) (2 + 1) ∧
      raycolor Sample.math Sample.transforms Sample.uninit MAXNUMBER Sample.mirror_scene
          Sample.ray 3
        = direct_color Sample.math Sample.transforms Sample.uninit Sample.mirror_scene
            (hit_record Sample.math Sample.transforms Sample.uninit Sample.mirror_scene
              Sample.ray) :=
  have hit : (hit_record Sample.math Sample.transforms Sample.uninit Sample.mirror_scene
      Sample.ray).t1 ≠ 1000000 := by
    rw [(mirror_scene_hit Sample.ray).1]; norm_num
  have hrefr : (hit_record Sample.math Sample.transforms Sample.uninit Sample.mirror_scene
      Sample.ray).material.refractive_index = 0 := by
    rw [(mirror_scene_hit Sample.ray).2]; rfl
  ⟨hit, hrefr,
    (raycolor_opaque_depth_branch Sample.math Sample.transforms Sample.uninit
      Sample.mirror_scene Sample.ray 2 hit hrefr).1 (by decide),
    (raycolor_opaque_depth_branch Sample.math Sample.transforms Sample.uninit
      Sample.mirror_scene Sample.ray 3 hit hrefr).2 (by decide)⟩

/-- C10 fails as stated at depth 3 = MAXNUMBER: in the scene of one opaque, fully mirroring
wall (ambient reflectance and ambient light white, no lights) `raycolor(ray, 3)` is the
ambient term (1, 1, 1), not ambient plus `specular * raycolor(reflectionRay, 4)`, which is
(2, 2, 2). -/
theorem raycolor_opaque_depth_three_no_recursion :
    raycolor Sample.math Sample.transforms Sample.uninit MAXNUMBER Sample.mirror_scene
        Sample.ray 3 = ⟨1, 1, 1⟩ ∧
      direct_color Sample.math Sample.transforms Sample.uninit Sample.mirror_scene
          (hit_record Sample.math Sample.transforms Sample.uninit Sample.mirror_scene
            Sample.ray)
        + (hit_record Sample.math Sample.transforms Sample.uninit Sample.mirror_scene
            Sample.ray).material.specular
          * raycolor Sample.math Sample.transforms Sample.uninit MAXNUMBER
              Sample.mirror_scene
              (reflection_ray Sample.math Sample.ray
                (hit_record Sample.math Sample.transforms Sample.uninit Sample.mirror_scene
                  Sample.ray)) (3 + 1) = ⟨2, 2, 2⟩ ∧
      (⟨1, 1, 1⟩ : Color3 ℚ) ≠ ⟨2, 2, 2⟩ := by
  have hval : ∀ (r : RayInfo ℚ) (n : Int), MAXNUMBER ≤ n →
      raycolor Sample.math Sample.transforms Sample.uninit MAXNUMBER Sample.mirror_scene r n
        = ⟨1, 1, 1⟩ := by
    intro r n hn
    have hit : (hit_record Sample.math Sample.transforms Sample.uninit Sample.mirror_scene
        r).t1 ≠ 1000000 := by
      rw [(mirror_scene_hit r).1]; norm_num
    have hrefr : (hit_record Sample.math Sample.transforms Sample.uninit
        Sample.mirror_scene r).material.refractive_index = 0 := by
      rw [(mirror_scene_hit r).2]; rfl
    have hn1 : ¬ (n + 1 ≤ MAXNUMBER) := by omega
    simp only [raycolor, raycolor_traced_opaque_hit Sample.math Sample.transforms Sample.uninit
      MAXNUMBER Sample.mirror_scene r n hit hrefr, hn1, if_false]
    exact mirror_scene_direct _ (mirror_scene_hit r).2
  refine ⟨hval _ 3 (by decide), ?_, by decide⟩
  rw [hval _ (3 + 1) (by decide), mirror_scene_direct _ (mirror_scene_hit Sample.ray).2,
    (mirror_scene_hit Sample.ray).2]
  show (⟨1 + 1 * 1, 1 + 1 * 1, 1 + 1 * 1⟩ : Color3 ℚ) = ⟨2, 2, 2⟩
  norm_num

/-! ### The dielectric branch -/

/-- A hit on a dielectric from the entering side (`dot(d, n) < 0`, lines 125-130 and
145-150): the flag of `refract` is not looked at, and the returned colour is
`specular * (R * reflected + (1 - R) * refracted)` when `n + 1 <= maxnumber`. -/
theorem raycolor_traced_entering (M : MathFns α) (T : Transforms α) (u : Uninit α)
    (maxnumber : Int) (scene : Scene α) (ray : RayInfo α) (n : Int)
    (hit : (hit_record M T u scene ray).t1 ≠ 1000000)
    (hrefr : (hit_record M T u scene ray).material.refractive_index ≠ 0)
    (hjudge : dot ray.direction (hit_record M T u scene ray).worldnormal < 0) :
    raycolor_traced M T u maxnumber scene ray n
      = if n + 1 ≤ maxnumber then
          ((hit_record M T u scene ray).material.specular
            * (fresnel (hit_record M T u scene ray).material.refractive_index
                  (-dot ray.direction (hit_record M T u scene ray).worldnormal)
                • (raycolor_traced M T u maxnumber scene
                    (reflection_ray M ray (hit_record M T u scene ray)) (n + 1)).1
              + (1 - fresnel (hit_record M T u scene ray).material.refractive_index
                  (-dot ray.direction (hit_record M T u scene ray).worldnormal))
                • (raycolor_traced M T u maxnumber scene
                    (refract M ray (hit_record M T u scene ray).worldnormal
                      (scene.refractive_index
                        / (hit_record M T u scene ray).material.refractive_index)
                      ⟨(hit_record M T u scene ray).worldposition, u.direction⟩).2
                    (n + 1)).1),
            max
              (raycolor_traced M T u maxnumber scene
                (reflection_ray M ray (hit_record M T u scene ray)) (n + 1)).2
              (raycolor_traced M T u maxnumber scene
                (refract M ray (hit_record M T u scene ray).worldnormal
                  (scene.refractive_index
                    / (hit_record M T u scene ray).material.refractive_index)
                  ⟨(hit_record M T u scene ray).worldposition, u.direction⟩).2
                (n + 1)).2 + 1)
        else (direct_color M T u scene (hit_record M T u scene ray), 0) := by
  have hit1 : (scan_scene T u scene ray).1.t1 ≠ 1000000 := hit
  have hrefr1 : (world_intersection M T u scene
      (scan_scene T u scene ray)).material.refractive_index ≠ 0 := hrefr
  have hjudge1 : dot ray.direction
      (world_intersection M T u scene (scan_scene T u scene ray)).worldnormal < 0 := hjudge
  rw [raycolor_traced]
  simp only [hit1, hrefr1, hjudge1, ne_eq, not_false_eq_true, if_true, hit_record]

/-- A hit on a dielectric from the exiting side (`dot(d, n) >= 0`) where `refract` with
the negated normal and the reciprocal ratio returns true (lines 133-136 and 145-150). -/
theorem raycolor_traced_exiting (M : MathFns α) (T : Transforms α) (u : Uninit α)
    (maxnumber : Int) (scene : Scene α) (ray : RayInfo α) (n : Int)
    (hit : (hit_record M T u scene ray).t1 ≠ 1000000)
    (hrefr : (hit_record M T u scene ray).material.refractive_index ≠ 0)
    (hjudge : ¬ dot ray.direction (hit_record M T u scene ray).worldnormal < 0)
    (hok : (refract M ray (-(hit_record M T u scene ray).worldnormal)
      (1 / (scene.refractive_index / (hit_record M T u scene ray).material.refractive_index))
      ⟨(hit_record M T u scene ray).worldposition, u.direction⟩).1 = true) :
    raycolor_traced M T u maxnumber scene ray n
      = if n + 1 ≤ maxnumber then
          ((hit_record M T u scene ray).material.specular
            * (fresnel (hit_record M T u scene ray).material.refractive_index
                  (dot (refract M ray (-(hit_record M T u scene ray).worldnormal)
                      (1 / (scene.refractive_index
                        / (hit_record M T u scene ray).material.refractive_index))
                      ⟨(hit_record M T u scene ray).worldposition, u.direction⟩).2.direction
                    (hit_record M T u scene ray).worldnormal)
                • (raycolor_traced M T u maxnumber scene
                    (reflection_ray M ray (hit_record M T u scene ray)) (n + 1)).1
              + (1 - fresnel (hit_record M T u scene ray).material.refractive_index
                  (dot (refract M ray (-(hit_record M T u scene ray).worldnormal)
                      (1 / (scene.refractive_index
                        / (hit_record M T u scene ray).material.refractive_index))
                      ⟨(hit_record M T u scene ray).worldposition, u.direction⟩).2.direction
                    (hit_record M T u scene ray).worldnormal))
                • (raycolor_traced M T u maxnumber scene
                    (refract M ray (-(hit_record M T u scene ray).worldnormal)
                      (1 / (scene.refractive_index
                        / (hit_record M T u scene ray).material.refractive_index))
                      ⟨(hit_record M T u scene ray).worldposition, u.direction⟩).2
                    (n + 1)).1),
            max
              (raycolor_traced M T u maxnumber scene
                (reflection_ray M ray (hit_record M T u scene ray)) (n + 1)).2
              (raycolor_traced M T u maxnumber scene
                (refract M ray (-(hit_record M T u scene ray).worldnormal)
                  (1 / (scene.refractive_index
                    / (hit_record M T u scene ray).material.refractive_index))
                  ⟨(hit_record M T u scene ray).worldposition, u.direction⟩).2
                (n + 1)).2 + 1)
        else (direct_color M T u scene (hit_record M T u scene ray), 0) := by
  have hit1 : (scan_scene T u scene ray).1.t1 ≠ 1000000 := hit
  have hrefr1 : (world_intersection M T u scene
      (scan_scene T u scene ray)).material.refractive_index ≠ 0 := hrefr
  have hjudge1 : ¬ dot ray.direction
      (world_intersection M T u scene (scan_scene T u scene ray)).worldnormal < 0 := hjudge
  have hok1 : (refract M ray
      (-(world_intersection M T u scene (scan_scene T u scene ray)).worldnormal)
      (1 / (scene.refractive_index
        / (world_intersection M T u scene (scan_scene T u scene ray)).material.refractive_index))
      ⟨(world_intersection M T u scene (scan_scene T u scene ray)).worldposition,
        u.direction⟩).1 = true := hok
  rw [raycolor_traced]
  simp only [hit1, hrefr1, hjudge1, hok1, ne_eq, not_false_eq_true, if_true, if_false,
    hit_record]

/-- A hit on a dielectric from the exiting side where `refract` returns false (total
internal reflection, lines 137-143): `specular * reflected` when `n + 1 <= maxnumber`;
otherwise control reaches line 159 and the accumulated colour is returned. -/
theorem raycolor_traced_internal_reflection (M : MathFns α) (T : Transforms α)
    (u : Uninit α) (maxnumber : Int) (scene : Scene α) (ray : RayInfo α) (n : Int)
    (hit : (hit_record M T u scene ray).t1 ≠ 1000000)
    (hrefr : (hit_record M T u scene ray).material.refractive_index ≠ 0)
    (hjudge : ¬ dot ray.direction (hit_record M T u scene ray).worldnormal < 0)
    (hfail : (refract M ray (-(hit_record M T u scene ray).worldnormal)
      (1 / (scene.refractive_index / (hit_record M T u scene ray).material.refractive_index))
      ⟨(hit_record M T u scene ray).worldposition, u.direction⟩).1 = false) :
    raycolor_traced M T u maxnumber scene ray n
      = if n + 1 ≤ maxnumber then
          ((hit_record M T u scene ray).material.specular
            * (raycolor_traced M T u maxnumber scene
                (reflection_ray M ray (hit_record M T u scene ray)) (n + 1)).1,
            (raycolor_traced M T u maxnumber scene
              (reflection_ray M ray (hit_record M T u scene ray)) (n + 1)).2 + 1)
        else (direct_color M T u scene (hit_record M T u scene ray), 0) := by
  have hit1 : (scan_scene T u scene ray).1.t1 ≠ 1000000 := hit
  have hrefr1 : (world_intersection M T u scene
      (scan_scene T u scene ray)).material.refractive_index ≠ 0 := hrefr
  have hjudge1 : ¬ dot ray.direction
      (world_intersection M T u scene (scan_scene T u scene ray)).worldnormal < 0 := hjudge
  have hfail1 : (refract M ray
      (-(world_intersection M T u scene (scan_scene T u scene ray)).worldnormal)
      (1 / (scene.refractive_index
        / (world_intersection M T u scene (scan_scene T u scene ray)).material.refractive_index))
      ⟨(world_intersection M T u scene (scan_scene T u scene ray)).worldposition,
        u.direction⟩).1 = false := hfail
  rw [raycolor_traced]
  simp only [hit1, hrefr1, hjudge1, hfail1, ne_eq, not_false_eq_true, if_true, if_false,
    hit_record, Bool.false_eq_true]
  split_ifs <;> rfl

/-- A hit at a depth where the test `n <= MAXNUMBER` after `n++` fails: whatever the
material, control reaches line 159 and the accumulated colour is returned. -/
theorem raycolor_traced_exhausted (M : MathFns α) (T : Transforms α) (u : Uninit α)
    (maxnumber : Int) (scene : Scene α) (ray : RayInfo α) (n : Int)
    (hit : (hit_record M T u scene ray).t1 ≠ 1000000) (hn : ¬ (n + 1 ≤ maxnumber)) :
    raycolor_traced M T u maxnumber scene ray n
      = (direct_color M T u scene (hit_record M T u scene ray), 0) := by
  have hit1 : (scan_scene T u scene ray).1.t1 ≠ 1000000 := hit
  rw [raycolor_traced]
  simp only [hit1, hn, ne_eq, not_false_eq_true, if_true, if_false, hit_record]
  split_ifs <;> rfl

/-- The flag of `refract` is true exactly when `k = 1 - ratio^2 * (1 - dot(d,n)^2)` is
positive. -/
theorem refract_flag (M : MathFns α) (ray : RayInfo α) (normal : Vector3 α) (ratio : α)
    (refractionray : RayInfo α) :
    (refract M ray normal ratio refractionray).1 = true
      ↔ 0 < 1 - ratio * ratio * (1 - dot ray.direction normal * dot ray.direction normal) := by
  unfold refract
  by_cases h : 0 < 1 - ratio * ratio * (1 - dot ray.direction normal * dot ray.direction normal)
  · simp [h]
  · simp [h]

/-- When `refract` returns false the refraction ray is left as it was handed in. -/
theorem refract_false_ray (M : MathFns α) (ray : RayInfo α) (normal : Vector3 α) (ratio : α)
    (refractionray : RayInfo α) (h : (refract M ray normal ratio refractionray).1 = false) :
    (refract M ray normal ratio refractionray).2 = refractionray := by
  unfold refract at h ⊢
  by_cases hk : 0 < 1 - ratio * ratio
      * (1 - dot ray.direction normal * dot ray.direction normal)
  · simp [hk] at h
  · simp [hk]

/-- A hit on a dielectric where the blend is evaluated with a refraction ray that `refract`
has assigned: the colour returned is `specular * (R * reflected + (1 - R) * refracted)`. -/
theorem raycolor_dielectric_value (M : MathFns α) (T : Transforms α) (u : Uninit α)
    (maxnumber : Int) (scene : Scene α) (ray : RayInfo α) (n : Int)
    (hit : (hit_record M T u scene ray).t1 ≠ 1000000)
    (hrefr : (hit_record M T u scene ray).material.refractive_index ≠ 0)
    (hn : n + 1 ≤ maxnumber)
    (hok : (dielectric_refract M u scene ray (hit_record M T u scene ray)).1 = true) :
    raycolor M T u maxnumber scene ray n
      = (hit_record M T u scene ray).material.specular
        * (fresnel (hit_record M T u scene ray).material.refractive_index
              (dielectric_cosine M u scene ray (hit_record M T u scene ray))
            • raycolor M T u maxnumber scene
                (reflection_ray M ray (hit_record M T u scene ray)) (n + 1)
          + (1 - fresnel (hit_record M T u scene ray).material.refractive_index
              (dielectric_cosine M u scene ray (hit_record M T u scene ray)))
            • raycolor M T u maxnumber scene
                (dielectric_refract M u scene ray (hit_record M T u scene ray)).2 (n + 1)) := by
  unfold raycolor
  by_cases hjudge : dot ray.direction (hit_record M T u scene ray).worldnormal < 0
  · rw [raycolor_traced_entering M T u maxnumber scene ray n hit hrefr hjudge]
    simp only [hn, if_true, dielectric_refract, dielectric_cosine, hjudge]
  · have hok1 := hok
    simp only [dielectric_refract, hjudge, if_false] at hok1
    rw [raycolor_traced_exiting M T u maxnumber scene ray n hit hrefr hjudge hok1]
    simp only [hn, if_true, dielectric_refract, dielectric_cosine, hjudge, if_false]

/-- C11, as the code has it: on a hit on a dielectric (`refractive_index != 0`) at a depth
below `MAXNUMBER` where `refract` succeeds (`k > 0`), `raycolor` returns
`material.specular * (R * raycolor(reflectionRay, n + 1) + (1 - R) * raycolor(refractionRay,
n + 1))` alone: lines 141 and 149 return the blend, the accumulated ambient and direct
diffuse colour is not part of the result. -/
theorem raycolor_dielectric_blend (M : MathFns α) (T : Transforms α) (u : Uninit α)
    (scene : Scene α) (ray : RayInfo α) (n : Int)
    (hit : (hit_record M T u scene ray).t1 ≠ 1000000)
    (hrefr : (hit_record M T u scene ray).material.refractive_index ≠ 0)
    (hdepth : n < MAXNUMBER)
    (hok : (dielectric_refract M u scene ray (hit_record M T u scene ray)).1 = true) :
    raycolor M T u MAXNUMBER scene ray n
      = (hit_record M T u scene ray).material.specular
        * (fresnel (hit_record M T u scene ray).material.refractive_index
              (dielectric_cosine M u scene ray (hit_record M T u scene ray))
            • raycolor M T u MAXNUMBER scene
                (reflection_ray M ray (hit_record M T u scene ray)) (n + 1)
          + (1 - fresnel (hit_record M T u scene ray).material.refractive_index
              (dielectric_cosine M u scene ray (hit_record M T u scene ray)))
            • raycolor M T u MAXNUMBER scene
                (dielectric_refract M u scene ray (hit_record M T u scene ray)).2 (n + 1)) :=
  raycolor_dielectric_value M T u MAXNUMBER scene ray n hit hrefr (by omega) hok

theorem glass_scene_hit (ray : RayInfo ℚ) :
    (hit_record Sample.math Sample.transforms Sample.uninit Sample.glass_scene ray).t1 = 1 ∧
      (hit_record Sample.math Sample.transforms Sample.uninit Sample.glass_scene ray).material
        = Sample.material Sample.white 2 ∧
      (hit_record Sample.math Sample.transforms Sample.uninit Sample.glass_scene
        ray).worldnormal = ⟨0, 0, 1⟩ := by
  have h : (EP : ℚ) ≤ 1 ∧ (1 : ℚ) < 1000000 := by norm_num [EP]
  norm_num [hit_record, world_intersection, scan_scene, raycolor_scan, initial_intersection,
    Sample.glass_scene, Sample.scene, Sample.wall, Sample.transforms, Sample.math,
    Sample.sqrt, normalize, length, dot, h]

theorem glass_scene_direct (isect : IntersectionInfo ℚ)
    (hm : isect.material = Sample.material Sample.white 2) :
    direct_color Sample.math Sample.transforms Sample.uninit Sample.glass_scene isect
      = ⟨1, 1, 1⟩ := by
  simp only [direct_color, Sample.glass_scene, Sample.scene, raycolor_lights, hm,
    Sample.material, Sample.white]
  show (⟨1 * 1, 1 * 1, 1 * 1⟩ : Color3 ℚ) = ⟨1, 1, 1⟩
  norm_num

theorem glass_scene_leaf (ray : RayInfo ℚ) (n : Int) (hn : MAXNUMBER ≤ n) :
    raycolor Sample.math Sample.transforms Sample.uninit MAXNUMBER Sample.glass_scene ray n
      = ⟨1, 1, 1⟩ := by
  have hit : (hit_record Sample.math Sample.transforms Sample.uninit Sample.glass_scene
      ray).t1 ≠ 1000000 := by
    rw [(glass_scene_hit ray).1]; norm_num
  unfold raycolor
  rw [raycolor_traced_exhausted _ _ _ _ _ ray n hit (by omega)]
  exact glass_scene_direct _ (glass_scene_hit ray).2.1

theorem glass_scene_refracts :
    (dielectric_refract Sample.math Sample.uninit Sample.glass_scene Sample.ray
      (hit_record Sample.math Sample.transforms Sample.uninit Sample.glass_scene
        Sample.ray)).1 = true := by
  have hjudge : dot Sample.ray.direction (hit_record Sample.math Sample.transforms
      Sample.uninit Sample.glass_scene Sample.ray).worldnormal < 0 := by
    rw [(glass_scene_hit Sample.ray).2.2]
    norm_num [dot, Sample.ray]
  simp only [dielectric_refract, hjudge, if_true]
  rw [refract_flag, (glass_scene_hit Sample.ray).2.2, (glass_scene_hit Sample.ray).2.1]
  norm_num [dot, Sample.ray, Sample.glass_scene, Sample.scene, Sample.material]

theorem blend_of_equal (R : ℚ) :
    Sample.white * (R • (⟨1, 1, 1⟩ : Color3 ℚ) + (1 - R) • (⟨1, 1, 1⟩ : Color3 ℚ))
      = ⟨1, 1, 1⟩ := by
  simp only [color_smul_def, color_add_def, color_mul_def, Sample.white]
  norm_num

/-- C11 at the glass wall met head-on at depth 2: the hit is a dielectric, the depth is
below `MAXNUMBER`, `refract` succeeds, and the colour is the blend alone. -/
theorem raycolor_dielectric_blend_witness :
    (hit_record Sample.math Sample.transforms Sample.uninit Sample.glass_scene Sample.ray).t1
        ≠ 1000000 ∧
      (hit_record Sample.math Sample.transforms Sample.uninit Sample.glass_scene
        Sample.ray).material.refractive_index ≠ 0 ∧
      (2 : Int) < MAXNUMBER ∧
      (dielectric_refract Sample.math Sample.uninit Sample.glass_scene Sample.ray
        (hit_record Sample.math Sample.transforms Sample.uninit Sample.glass_scene
          Sample.ray)).1 = true ∧
      raycolor Sample.math Sample.transforms Sample.uninit MAXNUMBER Sample.glass_scene
          Sample.ray 2
        = (hit_record Sample.math Sample.transforms Sample.uninit Sample.glass_scene
            Sample.ray).material.specular
          * (fresnel (hit_record Sample.math Sample.transforms Sample.uninit
                Sample.glass_scene Sample.ray).material.refractive_index
                (dielectric_cosine Sample.math Sample.uninit Sample.glass_scene Sample.ray
                  (hit_record Sample.math Sample.transforms Sample.uninit Sample.glass_scene
                    Sample.ray))
              • raycolor Sample.math Sample.transforms Sample.uninit MAXNUMBER
                  Sample.glass_scene
                  (reflection_ray Sample.math Sample.ray
                    (hit_record Sample.math Sample.transforms Sample.uninit
                      Sample.glass_scene Sample.ray)) (2 + 1)
            + (1 - fresnel (hit_record Sample.math Sample.transforms Sample.uninit
                Sample.glass_scene Sample.ray).material.refractive_index
                (dielectric_cosine Sample.math Sample.uninit Sample.glass_scene Sample.ray
                  (hit_record Sample.math Sample.transforms Sample.uninit Sample.glass_scene
                    Sample.ray)))
              • raycolor Sample.math Sample.transforms Sample.uninit MAXNUMBER
                  Sample.glass_scene
                  (dielectric_refract Sample.math Sample.uninit Sample.glass_scene
                    Sample.ray
                    (hit_record Sample.math Sample.transforms Sample.uninit
                      Sample.glass_scene Sample.ray)).2 (2 + 1)) :=
  have hit : (hit_record Sample.math Sample.transforms Sample.uninit Sample.glass_scene
      Sample.ray).t1 ≠ 1000000 := by
    rw [(glass_scene_hit Sample.ray).1]; norm_num
  have hrefr : (hit_record Sample.math Sample.transforms Sample.uninit Sample.glass_scene
      Sample.ray).material.refractive_index ≠ 0 := by
    rw [(glass_scene_hit Sample.ray).2.1]; norm_num [Sample.material]
  ⟨hit, hrefr, by decide, glass_scene_refracts,
    raycolor_dielectric_blend Sample.math Sample.transforms Sample.uninit Sample.glass_scene
      Sample.ray 2 hit hrefr (by decide) glass_scene_refracts⟩

/-- C11 fails as stated: at the glass wall (dielectric of index 2 in a medium of index 1,
ambient reflectance and ambient light white, zero lights) met head-on at depth 2, where
`refract` succeeds, `raycolor` returns the blend (1, 1, 1), not the accumulated ambient
colour (1, 1, 1) plus the blend, which is (2, 2, 2). -/
theorem raycolor_dielectric_drops_ambient :
    Sample.glass_scene.lights = [] ∧
      (dielectric_refract Sample.math Sample.uninit Sample.glass_scene Sample.ray
        (hit_record Sample.math Sample.transforms Sample.uninit Sample.glass_scene
          Sample.ray)).1 = true ∧
      raycolor Sample.math Sample.transforms Sample.uninit MAXNUMBER Sample.glass_scene
        Sample.ray 2 = ⟨1, 1, 1⟩ ∧
      direct_color Sample.math Sample.transforms Sample.uninit Sample.glass_scene
          (hit_record Sample.math Sample.transforms Sample.uninit Sample.glass_scene
            Sample.ray)
        + (hit_record Sample.math Sample.transforms Sample.uninit Sample.glass_scene
            Sample.ray).material.specular
          * (fresnel (hit_record Sample.math Sample.transforms Sample.uninit
                Sample.glass_scene Sample.ray).material.refractive_index
                (dielectric_cosine Sample.math Sample.uninit Sample.glass_scene Sample.ray
                  (hit_record Sample.math Sample.transforms Sample.uninit Sample.glass_scene
                    Sample.ray))
              • raycolor Sample.math Sample.transforms Sample.uninit MAXNUMBER
                  Sample.glass_scene
                  (reflection_ray Sample.math Sample.ray
                    (hit_record Sample.math Sample.transforms Sample.uninit
                      Sample.glass_scene Sample.ray)) (2 + 1)
            + (1 - fresnel (hit_record Sample.math Sample.transforms Sample.uninit
                Sample.glass_scene Sample.ray).material.refractive_index
                (dielectric_cosine Sample.math Sample.uninit Sample.glass_scene Sample.ray
                  (hit_record Sample.math Sample.transforms Sample.uninit Sample.glass_scene
                    Sample.ray)))
              • raycolor Sample.math Sample.transforms Sample.uninit MAXNUMBER
                  Sample.glass_scene
                  (dielectric_refract Sample.math Sample.uninit Sample.glass_scene
                    Sample.ray
                    (hit_record Sample.math Sample.transforms Sample.uninit
                      Sample.glass_scene Sample.ray)).2 (2 + 1))
        = ⟨2, 2, 2⟩ ∧
      (⟨1, 1, 1⟩ : Color3 ℚ) ≠ ⟨2, 2, 2⟩ := by
  have hit : (hit_record Sample.math Sample.transforms Sample.uninit Sample.glass_scene
      Sample.ray).t1 ≠ 1000000 := by
    rw [(glass_scene_hit Sample.ray).1]; norm_num
  have hrefr : (hit_record Sample.math Sample.transforms Sample.uninit Sample.glass_scene
      Sample.ray).material.refractive_index ≠ 0 := by
    rw [(glass_scene_hit Sample.ray).2.1]; norm_num [Sample.material]
  have hspec : (hit_record Sample.math Sample.transforms Sample.uninit Sample.glass_scene
      Sample.ray).material.specular = Sample.white := by
    rw [(glass_scene_hit Sample.ray).2.1]; rfl
  refine ⟨rfl, glass_scene_refracts, ?_, ?_, by decide⟩
  · rw [raycolor_dielectric_value _ _ _ _ _ Sample.ray 2 hit hrefr (by decide)
      glass_scene_refracts, glass_scene_leaf _ (2 + 1) (by decide),
      glass_scene_leaf _ (2 + 1) (by decide), hspec]
    exact blend_of_equal _
  · rw [glass_scene_leaf _ (2 + 1) (by decide), glass_scene_leaf _ (2 + 1) (by decide),
      hspec, blend_of_equal, glass_scene_direct _ (glass_scene_hit Sample.ray).2.1]
    show (⟨1 + 1, 1 + 1, 1 + 1⟩ : Color3 ℚ) = ⟨2, 2, 2⟩
    norm_num

/-! ### The refraction ray on the entering side -/

/-- A hit on a dielectric from the entering side where `refract` returns false: line 128
does not look at the flag, so at a depth below the bound the blend of line 149 is evaluated
all the same, with the refraction ray whose direction has never been assigned. -/
theorem raycolor_entering_unassigned (M : MathFns α) (T : Transforms α) (u : Uninit α)
    (maxnumber : Int) (scene : Scene α) (ray : RayInfo α) (n : Int)
    (hit : (hit_record M T u scene ray).t1 ≠ 1000000)
    (hrefr : (hit_record M T u scene ray).material.refractive_index ≠ 0)
    (hjudge : dot ray.direction (hit_record M T u scene ray).worldnormal < 0)
    (hfail : (dielectric_refract M u scene ray (hit_record M T u scene ray)).1 = false)
    (hn : n + 1 ≤ maxnumber) :
    (dielectric_refract M u scene ray (hit_record M T u scene ray)).2
        = ⟨(hit_record M T u scene ray).worldposition, u.direction⟩ ∧
      raycolor M T u maxnumber scene ray n
        = (hit_record M T u scene ray).material.specular
          * (fresnel (hit_record M T u scene ray).material.refractive_index
                (-dot ray.direction (hit_record M T u scene ray).worldnormal)
              • raycolor M T u maxnumber scene
                  (reflection_ray M ray (hit_record M T u scene ray)) (n + 1)
            + (1 - fresnel (hit_record M T u scene ray).material.refractive_index
                (-dot ray.direction (hit_record M T u scene ray).worldnormal))
              • raycolor M T u maxnumber scene
                  ⟨(hit_record M T u scene ray).worldposition, u.direction⟩ (n + 1)) := by
  have hfail1 := hfail
  simp only [dielectric_refract, hjudge, if_true] at hfail1
  have hray := refract_false_ray M ray _ _ _ hfail1
  constructor
  · simp only [dielectric_refract, hjudge, if_true]
    exact hray
  · unfold raycolor
    rw [raycolor_traced_entering M T u maxnumber scene ray n hit hrefr hjudge]
    simp only [hn, if_true, hray]

/-- Where the entering side is safe: for a unit direction and a unit normal with
`dot(d, n) < 0` and a ratio `scene index / material index` of square at most 1 (the medium
is not denser than the material), `refract` returns true, so the refraction ray is assigned. -/
theorem refract_entering_succeeds (M : MathFns α) (ray : RayInfo α) (normal : Vector3 α)
    (ratio : α) (refractionray : RayInfo α)
    (hd : dot ray.direction ray.direction = 1) (hnormal : dot normal normal = 1)
    (hjudge : dot ray.direction normal < 0) (hratio : ratio * ratio ≤ 1) :
    (refract M ray normal ratio refractionray).1 = true := by
  rw [refract_flag]
  have hcs : dot ray.direction normal * dot ray.direction normal ≤ 1 := by
    have hlagrange : dot ray.direction ray.direction * dot normal normal
        - dot ray.direction normal * dot ray.direction normal
        = dot (cross ray.direction normal) (cross ray.direction normal) := by
      simp only [dot, cross]
      ring
    have hnonneg : 0 ≤ dot (cross ray.direction normal) (cross ray.direction normal) :=
      add_nonneg (add_nonneg (mul_self_nonneg _) (mul_self_nonneg _)) (mul_self_nonneg _)
    rw [hd, hnormal] at hlagrange
    linarith
  have hsq : 0 < dot ray.direction normal * dot ray.direction normal :=
    mul_pos_of_neg_of_neg hjudge hjudge
  have hrr : 0 ≤ ratio * ratio := mul_self_nonneg ratio
  nlinarith [mul_nonneg hrr (sub_nonneg.mpr hcs),
    mul_nonneg (sub_nonneg.mpr hratio) (sub_nonneg.mpr hcs)]

theorem bubble_scene_hit (direction : Vector3 ℚ) (ray : RayInfo ℚ)
    (hz : ray.direction.z < 0) :
    (hit_record Sample.math Sample.transforms (Sample.uninit_towards direction)
        Sample.bubble_scene ray).t1 = 1 ∧
      (hit_record Sample.math Sample.transforms (Sample.uninit_towards direction)
        Sample.bubble_scene ray).material = Sample.material Sample.white 1 ∧
      (hit_record Sample.math Sample.transforms (Sample.uninit_towards direction)
        Sample.bubble_scene ray).worldnormal = ⟨0, 0, 1⟩ ∧
      (hit_record Sample.math Sample.transforms (Sample.uninit_towards direction)
        Sample.bubble_scene ray).worldposition = ray.origin + (1 : ℚ) • ray.direction := by
  have h : (EP : ℚ) ≤ 1 ∧ (1 : ℚ) < 1000000 := by norm_num [EP]
  norm_num [hit_record, world_intersection, scan_scene, raycolor_scan, initial_intersection,
    local_ray, Sample.bubble_scene, Sample.floor, Sample.transforms, Sample.math,
    Sample.sqrt, Sample.uninit_towards, normalize, length, dot, h, hz]

theorem bubble_scene_miss (direction : Vector3 ℚ) (ray : RayInfo ℚ)
    (hz : ¬ ray.direction.z < 0) (n : Int) :
    raycolor Sample.math Sample.transforms (Sample.uninit_towards direction) MAXNUMBER
      Sample.bubble_scene ray n = ⟨0, 0, 1⟩ := by
  have hscan : (scan_scene Sample.transforms (Sample.uninit_towards direction)
      Sample.bubble_scene ray).1.t1 = 1000000 := by
    simp [scan_scene, raycolor_scan, initial_intersection, local_ray, Sample.bubble_scene,
      Sample.floor, Sample.transforms, hz]
  unfold raycolor
  rw [raycolor_miss _ _ _ _ _ ray n hscan]
  rfl

theorem bubble_scene_direct (u : Uninit ℚ) (isect : IntersectionInfo ℚ)
    (hm : isect.material = Sample.material Sample.white 1) :
    direct_color Sample.math Sample.transforms u Sample.bubble_scene isect = ⟨1, 1, 1⟩ := by
  simp only [direct_color, Sample.bubble_scene, raycolor_lights, hm, Sample.material,
    Sample.white]
  show (⟨1 * 1, 1 * 1, 1 * 1⟩ : Color3 ℚ) = ⟨1, 1, 1⟩
  norm_num

theorem bubble_scene_leaf (direction : Vector3 ℚ) (ray : RayInfo ℚ)
    (hz : ray.direction.z < 0) (n : Int) (hn : MAXNUMBER ≤ n) :
    raycolor Sample.math Sample.transforms (Sample.uninit_towards direction) MAXNUMBER
      Sample.bubble_scene ray n = ⟨1, 1, 1⟩ := by
  have hit : (hit_record Sample.math Sample.transforms (Sample.uninit_towards direction)
      Sample.bubble_scene ray).t1 ≠ 1000000 := by
    rw [(bubble_scene_hit direction ray hz).1]; norm_num
  unfold raycolor
  rw [raycolor_traced_exhausted _ _ _ _ _ ray n hit (by omega)]
  exact bubble_scene_direct (Sample.uninit_towards direction) _
    (bubble_scene_hit direction ray hz).2.1

/-- The grazing ray in the bubble scene, for every content of the unassigned refraction
direction: the hit is a dielectric met from the entering side by a unit direction on a unit
normal, both indices are positive, `refract` returns false, and at depth 2 the colour
returned is the blend in which the refraction ray has the unassigned direction. -/
theorem bubble_scene_grazing (direction : Vector3 ℚ) :
    dot Sample.grazing_ray.direction Sample.grazing_ray.direction = 1 ∧
      dot (hit_record Sample.math Sample.transforms (Sample.uninit_towards direction)
          Sample.bubble_scene Sample.grazing_ray).worldnormal
        (hit_record Sample.math Sample.transforms (Sample.uninit_towards direction)
          Sample.bubble_scene Sample.grazing_ray).worldnormal = 1 ∧
      0 < Sample.bubble_scene.refractive_index ∧
      0 < (hit_record Sample.math Sample.transforms (Sample.uninit_towards direction)
        Sample.bubble_scene Sample.grazing_ray).material.refractive_index ∧
      dot Sample.grazing_ray.direction
        (hit_record Sample.math Sample.transforms (Sample.uninit_towards direction)
          Sample.bubble_scene Sample.grazing_ray).worldnormal < 0 ∧
      (dielectric_refract Sample.math (Sample.uninit_towards direction) Sample.bubble_scene
        Sample.grazing_ray
        (hit_record Sample.math Sample.transforms (Sample.uninit_towards direction)
          Sample.bubble_scene Sample.grazing_ray)).1 = false ∧
      raycolor Sample.math Sample.transforms (Sample.uninit_towards direction) MAXNUMBER
          Sample.bubble_scene Sample.grazing_ray 2
        = Sample.white
          * ((1 / 3125 : ℚ) • (⟨0, 0, 1⟩ : Color3 ℚ)
            + (1 - 1 / 3125 : ℚ)
              • raycolor Sample.math Sample.transforms (Sample.uninit_towards direction)
                  MAXNUMBER Sample.bubble_scene ⟨⟨3 / 5, 0, -4 / 5⟩, direction⟩
                  (2 + 1)) := by
  have hz : Sample.grazing_ray.direction.z < 0 := by norm_num [Sample.grazing_ray]
  obtain ⟨ht1, hmat, hnormal, hpos⟩ := bubble_scene_hit direction Sample.grazing_ray hz
  have hit : (hit_record Sample.math Sample.transforms (Sample.uninit_towards direction)
      Sample.bubble_scene Sample.grazing_ray).t1 ≠ 1000000 := by
    rw [ht1]; norm_num
  have hrefr : (hit_record Sample.math Sample.transforms (Sample.uninit_towards direction)
      Sample.bubble_scene Sample.grazing_ray).material.refractive_index ≠ 0 := by
    rw [hmat]; norm_num [Sample.material]
  have hjudge : dot Sample.grazing_ray.direction
      (hit_record Sample.math Sample.transforms (Sample.uninit_towards direction)
        Sample.bubble_scene Sample.grazing_ray).worldnormal < 0 := by
    rw [hnormal]; norm_num [dot, Sample.grazing_ray]
  have hfail : (dielectric_refract Sample.math (Sample.uninit_towards direction)
      Sample.bubble_scene Sample.grazing_ray
      (hit_record Sample.math Sample.transforms (Sample.uninit_towards direction)
        Sample.bubble_scene Sample.grazing_ray)).1 = false := by
    simp only [dielectric_refract, hjudge, if_true]
    rw [Bool.eq_false_iff, Ne, refract_flag, hnormal, hmat]
    norm_num [dot, Sample.grazing_ray, Sample.bubble_scene, Sample.material]
  have hposition : (hit_record Sample.math Sample.transforms (Sample.uninit_towards direction)
      Sample.bubble_scene Sample.grazing_ray).worldposition = ⟨3 / 5, 0, -4 / 5⟩ := by
    rw [hpos]
    norm_num [Sample.grazing_ray, Sample.origin, vector_add_def, vector_smul_def]
  have hreflected : ¬ (reflection_ray Sample.math Sample.grazing_ray
      (hit_record Sample.math Sample.transforms (Sample.uninit_towards direction)
        Sample.bubble_scene Sample.grazing_ray)).direction.z < 0 := by
    simp only [reflection_ray, hnormal]
    norm_num [reflection_direction, normalize, length, dot, vector_sub_def, vector_smul_def,
      Sample.grazing_ray, Sample.math, Sample.sqrt]
  have hfresnel : fresnel (hit_record Sample.math Sample.transforms
      (Sample.uninit_towards direction) Sample.bubble_scene
      Sample.grazing_ray).material.refractive_index
      (-dot Sample.grazing_ray.direction
        (hit_record Sample.math Sample.transforms (Sample.uninit_towards direction)
          Sample.bubble_scene Sample.grazing_ray).worldnormal) = 1 / 3125 := by
    rw [hnormal, hmat]
    norm_num [fresnel, dot, Sample.grazing_ray, Sample.material]
  have hspec : (hit_record Sample.math Sample.transforms (Sample.uninit_towards direction)
      Sample.bubble_scene Sample.grazing_ray).material.specular = Sample.white := by
    rw [hmat]; rfl
  refine ⟨by norm_num [dot, Sample.grazing_ray], by rw [hnormal]; norm_num [dot],
    by norm_num [Sample.bubble_scene], by rw [hmat]; norm_num [Sample.material], hjudge,
    hfail, ?_⟩
  rw [(raycolor_entering_unassigned Sample.math Sample.transforms
    (Sample.uninit_towards direction) MAXNUMBER Sample.bubble_scene Sample.grazing_ray 2 hit
    hrefr hjudge hfail (by decide)).2, hfresnel, hspec,
    bubble_scene_miss direction _ hreflected, hposition]
  rfl

/-- C12, the failing hit: in a medium of refractive index 2 a dielectric of index 1 is met
from the entering side by the unit direction (3/5, 0, -4/5) on the unit normal (0, 0, 1).
`refract` returns false (`k = -11/25`), its flag is not looked at (line 128), and at depth 2
the blend of line 149 is evaluated with the refraction ray whose direction was never
assigned: the colour returned changes with the content of that unassigned direction, here
(0, 0, -1) against (0, 0, 1). -/
theorem raycolor_entering_uses_unassigned_direction :
    dot Sample.grazing_ray.direction Sample.grazing_ray.direction = 1 ∧
      dot (hit_record Sample.math Sample.transforms (Sample.uninit_towards ⟨0, 0, -1⟩)
          Sample.bubble_scene Sample.grazing_ray).worldnormal
        (hit_record Sample.math Sample.transforms (Sample.uninit_towards ⟨0, 0, -1⟩)
          Sample.bubble_scene Sample.grazing_ray).worldnormal = 1 ∧
      0 < Sample.bubble_scene.refractive_index ∧
      0 < (hit_record Sample.math Sample.transforms (Sample.uninit_towards ⟨0, 0, -1⟩)
        Sample.bubble_scene Sample.grazing_ray).material.refractive_index ∧
      dot Sample.grazing_ray.direction
        (hit_record Sample.math Sample.transforms (Sample.uninit_towards ⟨0, 0, -1⟩)
          Sample.bubble_scene Sample.grazing_ray).worldnormal < 0 ∧
      (dielectric_refract Sample.math (Sample.uninit_towards ⟨0, 0, -1⟩) Sample.bubble_scene
        Sample.grazing_ray
        (hit_record Sample.math Sample.transforms (Sample.uninit_towards ⟨0, 0, -1⟩)
          Sample.bubble_scene Sample.grazing_ray)).1 = false ∧
      (dielectric_refract Sample.math (Sample.uninit_towards ⟨0, 0, 1⟩) Sample.bubble_scene
        Sample.grazing_ray
        (hit_record Sample.math Sample.transforms (Sample.uninit_towards ⟨0, 0, 1⟩)
          Sample.bubble_scene Sample.grazing_ray)).1 = false ∧
      raycolor Sample.math Sample.transforms (Sample.uninit_towards ⟨0, 0, -1⟩) MAXNUMBER
          Sample.bubble_scene Sample.grazing_ray 2 = ⟨3124 / 3125, 3124 / 3125, 1⟩ ∧
      raycolor Sample.math Sample.transforms (Sample.uninit_towards ⟨0, 0, 1⟩) MAXNUMBER
          Sample.bubble_scene Sample.grazing_ray 2 = ⟨0, 0, 1⟩ := by
  obtain ⟨hd, hnormal, hscene, hmaterial, hjudge, hfail, _⟩ :=
    bubble_scene_grazing ⟨0, 0, -1⟩
  refine ⟨hd, hnormal, hscene, hmaterial, hjudge, hfail,
    (bubble_scene_grazing ⟨0, 0, 1⟩).2.2.2.2.2.1, ?_, ?_⟩
  · rw [(bubble_scene_grazing ⟨0, 0, -1⟩).2.2.2.2.2.2,
      bubble_scene_leaf ⟨0, 0, -1⟩ ⟨⟨3 / 5, 0, -4 / 5⟩, ⟨0, 0, -1⟩⟩ (by norm_num)
        (2 + 1) (by decide)]
    simp only [color_smul_def, color_add_def, color_mul_def, Sample.white]
    norm_num
  · rw [(bubble_scene_grazing ⟨0, 0, 1⟩).2.2.2.2.2.2,
      bubble_scene_miss ⟨0, 0, 1⟩ ⟨⟨3 / 5, 0, -4 / 5⟩, ⟨0, 0, 1⟩⟩ (by norm_num)
        (2 + 1)]
    simp only [color_smul_def, color_add_def, color_mul_def, Sample.white]
    norm_num

/-! ### Ambient and direct diffuse light -/

theorem shadow_hit_eq_any {β : Type} (T : Transforms β) (r : RayInfo β)
    (gs : List (Geometry β))
    (hfalse : ∀ g ∈ gs, ∀ i : IntersectionInfo β,
      (g.check_geometry (spec_to_local T g r.origin r.direction) i).1 = false →
        (g.check_geometry (spec_to_local T g r.origin r.direction) i).2 = i) :
    ∀ si : IntersectionInfo β,
      shadow_hit T r gs si
        = gs.any (fun g => (g.check_geometry (spec_to_local T g r.origin r.direction) si).1) := by
  induction gs with
  | nil => intro si; rfl
  | cons g gs ih =>
    intro si
    have hlocal : local_ray T g r = spec_to_local T g r.origin r.direction := rfl
    rw [shadow_hit, List.any_cons, hlocal]
    by_cases hchk : (g.check_geometry (spec_to_local T g r.origin r.direction) si).1 = true
    · simp [hchk]
    · have hf : (g.check_geometry (spec_to_local T g r.origin r.direction) si).1 = false := by
        simpa using hchk
      have hsame := hfalse g (List.mem_cons_self g gs) _ hf
      simp only [hf, Bool.false_eq_true, if_false, Bool.false_or]
      rw [hsame]
      exact ih (fun g1 hg1 => hfalse g1 (List.mem_cons_of_mem g hg1)) si

/-- One turn of the loop over the lights (lines 79-110), with the shadow ray, the interval
and the local rays written out. -/
theorem raycolor_lights_cons (M : MathFns α) (T : Transforms α) (u : Uninit α)
    (scene : Scene α) (isect : IntersectionInfo α) (light : PointLight α)
    (rest : List (PointLight α)) (color : Color3 α) :
    raycolor_lights M T u scene isect (light :: rest) color
      = if 0 < dot isect.worldnormal (spec_light_dir M isect light) then
          if shadow_hit T ⟨isect.worldposition, spec_light_dir M isect light⟩ scene.geometries
              { u.intersection with
                t0 := EP
                t1 := spec_light_distance M isect light } = false then
            raycolor_lights M T u scene isect rest
              (color + dot isect.worldnormal (spec_light_dir M isect light)
                • (isect.material.diffuse * light.color))
          else raycolor_lights M T u scene isect rest color
        else raycolor_lights M T u scene isect rest color := rfl

theorem raycolor_lights_eq (M : MathFns α) (T : Transforms α) (u : Uninit α) (scene : Scene α)
    (isect : IntersectionInfo α) (lights : List (PointLight α))
    (hfalse : ∀ light ∈ lights, ∀ g ∈ scene.geometries, ∀ i : IntersectionInfo α,
      (g.check_geometry
          (spec_to_local T g isect.worldposition (spec_light_dir M isect light)) i).1 = false →
        (g.check_geometry
          (spec_to_local T g isect.worldposition (spec_light_dir M isect light)) i).2 = i) :
    ∀ color : Color3 α,
      raycolor_lights M T u scene isect lights color
        = ((lights.filter (light_reaches M T u scene isect)).map
            (fun light => dot isect.worldnormal (spec_light_dir M isect light)
              • (isect.material.diffuse * light.color))).foldl (· + ·) color := by
  induction lights with
  | nil => intro color; rfl
  | cons light rest ih =>
    intro color
    have ihrest := ih (fun l hl => hfalse l (List.mem_cons_of_mem light hl))
    rw [raycolor_lights_cons,
      shadow_hit_eq_any T ⟨isect.worldposition, spec_light_dir M isect light⟩ scene.geometries
        (hfalse light (List.mem_cons_self light rest))]
    by_cases hd : 0 < dot isect.worldnormal (spec_light_dir M isect light)
    · by_cases hocc : scene.geometries.any (fun g =>
          (g.check_geometry
            (spec_to_local T g isect.worldposition (spec_light_dir M isect light))
            { u.intersection with
              t0 := EP
              t1 := spec_light_distance M isect light }).1) = false
      · have hreach : light_reaches M T u scene isect light = true := by
          simp only [light_reaches, hd, decide_True, Bool.true_and]
          simpa [List.any_eq_false, List.all_eq_true] using hocc
        simp only [hd, hocc, if_true, List.filter_cons, hreach, List.map_cons,
          List.foldl_cons]
        exact ihrest _
      · have hreach : light_reaches M T u scene isect light = false := by
          simp only [light_reaches, hd, decide_True, Bool.true_and]
          simpa [List.any_eq_false, List.all_eq_true] using hocc
        simp only [hd, hocc, if_true, if_false, List.filter_cons, hreach]
        exact ihrest _
    · have hreach : light_reaches M T u scene isect light = false := by
        simp [light_reaches, hd]
      simp only [hd, if_false, List.filter_cons, hreach]
      exact ihrest _

theorem direct_color_eq (M : MathFns α) (T : Transforms α) (u : Uninit α) (scene : Scene α)
    (isect : IntersectionInfo α)
    (hfalse : ∀ light ∈ scene.lights, ∀ g ∈ scene.geometries, ∀ i : IntersectionInfo α,
      (g.check_geometry
          (spec_to_local T g isect.worldposition (spec_light_dir M isect light)) i).1 = false →
        (g.check_geometry
          (spec_to_local T g isect.worldposition (spec_light_dir M isect light)) i).2 = i) :
    direct_color M T u scene isect = ambient_plus_diffuse M T u scene isect :=
  raycolor_lights_eq M T u scene isect scene.lights hfalse _

theorem color_add_black_mul (c x : Color3 α) : c + Color3.Black * x = c := by
  show (⟨c.r + 0 * x.r, c.g + 0 * x.g, c.b + 0 * x.b⟩ : Color3 α) = c
  simp

/-- C6, as the code has it: on a hit on an opaque material (`refractive_index = 0`) whose
specular reflectance is black, provided every instance that reports no hit on a shadow ray
from this hit point to a light of the scene leaves the record it was handed unchanged (the
occlusion loop hands one record from instance to instance), `raycolor` is, for every depth
`n` and every recursion bound, `material.ambient * ambient_light` plus the sum of
`material.diffuse * light.color * d` over exactly the lights with `d > 0` for which no
instance reports a hit within `[EP, distance to the light]`. -/
theorem raycolor_opaque_matte (M : MathFns α) (T : Transforms α) (u : Uninit α)
    (maxnumber : Int) (scene : Scene α) (ray : RayInfo α) (n : Int)
    (hit : (hit_record M T u scene ray).t1 ≠ 1000000)
    (hrefr : (hit_record M T u scene ray).material.refractive_index = 0)
    (hspec : (hit_record M T u scene ray).material.specular = Color3.Black)
    (hfalse : ∀ light ∈ scene.lights, ∀ g ∈ scene.geometries, ∀ i : IntersectionInfo α,
      (g.check_geometry
          (spec_to_local T g (hit_record M T u scene ray).worldposition
            (spec_light_dir M (hit_record M T u scene ray) light)) i).1 = false →
        (g.check_geometry
          (spec_to_local T g (hit_record M T u scene ray).worldposition
            (spec_light_dir M (hit_record M T u scene ray) light)) i).2 = i) :
    raycolor M T u maxnumber scene ray n
      = ambient_plus_diffuse M T u scene (hit_record M T u scene ray) := by
  unfold raycolor
  rw [raycolor_traced_opaque_hit M T u maxnumber scene ray n hit hrefr, hspec,
    direct_color_eq M T u scene _ hfalse]
  split_ifs
  · exact color_add_black_mul _ _
  · rfl

theorem matte_scene_hit (ray : RayInfo ℚ) :
    (hit_record Sample.math Sample.transforms Sample.uninit Sample.matte_scene ray).t1 = 1 ∧
      (hit_record Sample.math Sample.transforms Sample.uninit Sample.matte_scene ray).material
        = Sample.material Sample.black 0 := by
  have h : (EP : ℚ) ≤ 1 ∧ (1 : ℚ) < 1000000 := by norm_num [EP]
  simp [hit_record, world_intersection, scan_scene, raycolor_scan, initial_intersection,
    Sample.matte_scene, Sample.scene, Sample.wall, h]

/-- C6 at the wall without specular reflectance lit from the origin: the hypotheses hold
and the colour at depth 0 is ambient plus direct diffuse. -/
theorem raycolor_opaque_matte_witness :
    (hit_record Sample.math Sample.transforms Sample.uninit Sample.matte_scene Sample.ray).t1
        ≠ 1000000 ∧
      (hit_record Sample.math Sample.transforms Sample.uninit Sample.matte_scene
        Sample.ray).material.refractive_index = 0 ∧
      (hit_record Sample.math Sample.transforms Sample.uninit Sample.matte_scene
        Sample.ray).material.specular = Color3.Black ∧
      (∀ light ∈ Sample.matte_scene.lights, ∀ g ∈ Sample.matte_scene.geometries,
        ∀ i : IntersectionInfo ℚ,
        (g.check_geometry
            (spec_to_local Sample.transforms g
              (hit_record Sample.math Sample.transforms Sample.uninit Sample.matte_scene
                Sample.ray).worldposition
              (spec_light_dir Sample.math
                (hit_record Sample.math Sample.transforms Sample.uninit Sample.matte_scene
                  Sample.ray) light)) i).1 = false →
          (g.check_geometry
            (spec_to_local Sample.transforms g
              (hit_record Sample.math Sample.transforms Sample.uninit Sample.matte_scene
                Sample.ray).worldposition
              (spec_light_dir Sample.math
                (hit_record Sample.math Sample.transforms Sample.uninit Sample.matte_scene
                  Sample.ray) light)) i).2 = i) ∧
      raycolor Sample.math Sample.transforms Sample.uninit MAXNUMBER Sample.matte_scene
          Sample.ray 0
        = ambient_plus_diffuse Sample.math Sample.transforms Sample.uninit Sample.matte_scene
            (hit_record Sample.math Sample.transforms Sample.uninit Sample.matte_scene
              Sample.ray) :=
  have hit : (hit_record Sample.math Sample.transforms Sample.uninit Sample.matte_scene
      Sample.ray).t1 ≠ 1000000 := by
    rw [(matte_scene_hit Sample.ray).1]; norm_num
  have hrefr : (hit_record Sample.math Sample.transforms Sample.uninit Sample.matte_scene
      Sample.ray).material.refractive_index = 0 := by
    rw [(matte_scene_hit Sample.ray).2]; rfl
  have hspec : (hit_record Sample.math Sample.transforms Sample.uninit Sample.matte_scene
      Sample.ray).material.specular = Color3.Black := by
    rw [(matte_scene_hit Sample.ray).2]; rfl
  have hfalse : ∀ light ∈ Sample.matte_scene.lights, ∀ g ∈ Sample.matte_scene.geometries,
      ∀ i : IntersectionInfo ℚ,
      (g.check_geometry
          (spec_to_local Sample.transforms g
            (hit_record Sample.math Sample.transforms Sample.uninit Sample.matte_scene
              Sample.ray).worldposition
            (spec_light_dir Sample.math
              (hit_record Sample.math Sample.transforms Sample.uninit Sample.matte_scene
                Sample.ray) light)) i).1 = false →
        (g.check_geometry
          (spec_to_local Sample.transforms g
            (hit_record Sample.math Sample.transforms Sample.uninit Sample.matte_scene
              Sample.ray).worldposition
            (spec_light_dir Sample.math
              (hit_record Sample.math Sample.transforms Sample.uninit Sample.matte_scene
                Sample.ray) light)) i).2 = i := by
    intro light _ g hg i
    simp only [Sample.matte_scene, Sample.scene, List.mem_singleton] at hg
    subst hg
    by_cases h : i.t0 ≤ 1 ∧ 1 < i.t1 <;> simp [Sample.wall, h]
  ⟨hit, hrefr, hspec, hfalse,
    raycolor_opaque_matte Sample.math Sample.transforms Sample.uninit MAXNUMBER
      Sample.matte_scene Sample.ray 0 hit hrefr hspec hfalse⟩

/-- The value in the sample scene: the wall is hit at (0, 0, -1) with normal (0, 0, 1), the
light at the origin reaches it with `d = 1`, and ambient (1, 1, 1) plus diffuse (1, 1, 1)
is (2, 2, 2). -/
theorem matte_scene_value :
    ambient_plus_diffuse Sample.math Sample.transforms Sample.uninit Sample.matte_scene
      (hit_record Sample.math Sample.transforms Sample.uninit Sample.matte_scene Sample.ray)
      = ⟨2, 2, 2⟩ := by
  have h : (EP : ℚ) ≤ 1 := by norm_num [EP]
  norm_num [ambient_plus_diffuse, light_reaches, spec_light_dir, spec_light_distance,
    spec_to_local, hit_record, world_intersection, scan_scene,
    raycolor_scan, initial_intersection, local_ray,
    normalize, length, dot, Sample.matte_scene, Sample.scene, Sample.wall, Sample.ray,
    Sample.transforms, Sample.math, Sample.sqrt, Sample.origin, Sample.material,
    Sample.white, Sample.black, h, vector_add_def, vector_sub_def, vector_smul_def,
    color_add_def, color_mul_def, color_smul_def]

theorem spoiled_scene_hit :
    (hit_record Sample.math Sample.transforms Sample.uninit Sample.spoiled_scene
        Sample.ray).t1 = 1 ∧
      (hit_record Sample.math Sample.transforms Sample.uninit Sample.spoiled_scene
        Sample.ray).material = Sample.material Sample.black 0 := by
  have h : (EP : ℚ) ≤ 1 ∧ (1 : ℚ) < 1000000 := by norm_num [EP]
  norm_num [hit_record, world_intersection, scan_scene, raycolor_scan, initial_intersection,
    Sample.spoiled_scene, Sample.scene, Sample.wall, Sample.spoiler, h]

/-- The light loop of the code in the spoiled scene: the spoiler, asked first, reports no hit
and sets `t1` of the shadow record to 0, so the wall, asked next with that record, reports no
hit either, and the diffuse term of the light is added. -/
theorem spoiled_scene_direct :
    direct_color Sample.math Sample.transforms Sample.uninit Sample.spoiled_scene
      (hit_record Sample.math Sample.transforms Sample.uninit Sample.spoiled_scene Sample.ray)
      = ⟨2, 2, 2⟩ := by
  have h : (EP : ℚ) ≤ 1 := by norm_num [EP]
  norm_num [direct_color, raycolor_lights, shadow_hit, shadow_ray, shadow_intersection,
    hit_record, world_intersection, scan_scene, raycolor_scan, initial_intersection,
    local_ray, normalize, length, dot, Sample.spoiled_scene, Sample.scene, Sample.wall,
    Sample.spoiler, Sample.ray, Sample.transforms, Sample.math, Sample.sqrt, Sample.origin,
    Sample.material, Sample.white, Sample.black, Sample.uninit, Sample.record, h,
    vector_add_def, vector_sub_def, vector_smul_def, color_add_def, color_mul_def,
    color_smul_def]

/-- C6 fails as stated when an instance that reports no hit changes the record: in the
spoiled scene the ray hits the opaque wall without specular reflectance, the light at
(0, 0, 1) faces the surface (`d = 1`) and the wall itself reports a hit within
`[EP, distance to the light] = [EP, 2]`, so the claim gives the ambient term (1, 1, 1) alone;
`raycolor` returns (2, 2, 2), because the spoiler has set `t1` of the shadow record to 0
before the wall is asked. -/
theorem raycolor_matte_spoiled_shadow :
    (hit_record Sample.math Sample.transforms Sample.uninit Sample.spoiled_scene
        Sample.ray).t1 ≠ 1000000 ∧
      (hit_record Sample.math Sample.transforms Sample.uninit Sample.spoiled_scene
        Sample.ray).material.refractive_index = 0 ∧
      (hit_record Sample.math Sample.transforms Sample.uninit Sample.spoiled_scene
        Sample.ray).material.specular = Color3.Black ∧
      raycolor Sample.math Sample.transforms Sample.uninit MAXNUMBER Sample.spoiled_scene
        Sample.ray 0 = ⟨2, 2, 2⟩ ∧
      ambient_plus_diffuse Sample.math Sample.transforms Sample.uninit Sample.spoiled_scene
        (hit_record Sample.math Sample.transforms Sample.uninit Sample.spoiled_scene
          Sample.ray) = ⟨1, 1, 1⟩ ∧
      (⟨2, 2, 2⟩ : Color3 ℚ) ≠ ⟨1, 1, 1⟩ := by
  have hit : (hit_record Sample.math Sample.transforms Sample.uninit Sample.spoiled_scene
      Sample.ray).t1 ≠ 1000000 := by
    rw [spoiled_scene_hit.1]; norm_num
  have hrefr : (hit_record Sample.math Sample.transforms Sample.uninit Sample.spoiled_scene
      Sample.ray).material.refractive_index = 0 := by
    rw [spoiled_scene_hit.2]; rfl
  have hspec : (hit_record Sample.math Sample.transforms Sample.uninit Sample.spoiled_scene
      Sample.ray).material.specular = Color3.Black := by
    rw [spoiled_scene_hit.2]; rfl
  refine ⟨hit, hrefr, hspec, ?_, ?_, by decide⟩
  · unfold raycolor
    rw [raycolor_traced_opaque_hit _ _ _ _ _ Sample.ray 0 hit hrefr, hspec]
    have hdepth : (0 : Int) + 1 ≤ MAXNUMBER := by decide
    simp only [hdepth, if_true]
    rw [color_add_black_mul]
    exact spoiled_scene_direct
  · have h : (EP : ℚ) ≤ 1 := by norm_num [EP]
    norm_num [ambient_plus_diffuse, light_reaches, spec_light_dir, spec_light_distance,
      spec_to_local, hit_record, world_intersection, scan_scene, raycolor_scan,
      initial_intersection, local_ray, normalize, length, dot, Sample.spoiled_scene,
      Sample.scene, Sample.wall, Sample.spoiler, Sample.ray, Sample.transforms, Sample.math,
      Sample.sqrt, Sample.origin, Sample.material, Sample.white, Sample.black,
      Sample.uninit, Sample.record, h, vector_add_def, vector_sub_def, vector_smul_def,
      color_add_def, color_mul_def, color_smul_def]

/-! ### Recursion depth -/

theorem raycolor_traced_leaf (M : MathFns α) (T : Transforms α) (u : Uninit α)
    (maxnumber : Int) (scene : Scene α) (ray : RayInfo α) (n : Int)
    (hn : ¬ (n + 1 ≤ maxnumber)) :
    (raycolor_traced M T u maxnumber scene ray n).2 = 0 := by
  rw [raycolor_traced]
  simp only [hn, if_false]
  split_ifs <;> rfl

theorem raycolor_nesting_le (M : MathFns α) (T : Transforms α) (u : Uninit α)
    (maxnumber : Int) (scene : Scene α) :
    ∀ (k : Nat) (ray : RayInfo α) (n : Int), (maxnumber - n).toNat = k →
      raycolor_nesting M T u maxnumber scene ray n ≤ k := by
  intro k
  induction k with
  | zero =>
    intro ray n hk
    have hn : ¬ (n + 1 ≤ maxnumber) := by omega
    simp [raycolor_nesting, raycolor_traced_leaf M T u maxnumber scene ray n hn]
  | succ k ih =>
    intro ray n hk
    have hn : n + 1 ≤ maxnumber := by omega
    have hk1 : (maxnumber - (n + 1)).toNat = k := by omega
    have ih1 : ∀ r : RayInfo α, (raycolor_traced M T u maxnumber scene r (n + 1)).2 ≤ k :=
      fun r => ih r (n + 1) hk1
    unfold raycolor_nesting
    rw [raycolor_traced]
    simp only [hn, if_true]
    split_ifs
    · exact Nat.succ_le_succ (max_le (ih1 _) (ih1 _))
    · exact Nat.succ_le_succ (max_le (ih1 _) (ih1 _))
    · exact Nat.succ_le_succ (ih1 _)
    · exact Nat.succ_le_succ (ih1 _)
    · exact Nat.zero_le _

/-- C4: `raycolor` is a total function, defined by well-founded recursion on
`MAXNUMBER - n` (its recursive calls have depth `n + 1` and are made only when
`n + 1 <= MAXNUMBER`). For every scene, ray and depth `n` the longest chain of nested
recursive calls below a call has at most `MAXNUMBER - n` links (none when `n >= MAXNUMBER`):
at most 3 below a call with depth 0, whatever the materials. -/
theorem raycolor_recursion_bounded (M : MathFns α) (T : Transforms α) (u : Uninit α)
    (scene : Scene α) (ray : RayInfo α) (n : Int) :
    raycolor_nesting M T u MAXNUMBER scene ray n ≤ (MAXNUMBER - n).toNat ∧
      raycolor_nesting M T u MAXNUMBER scene ray 0 ≤ 3 :=
  ⟨raycolor_nesting_le M T u MAXNUMBER scene _ ray n rfl,
    raycolor_nesting_le M T u MAXNUMBER scene 3 ray 0 (by simp [MAXNUMBER])⟩

/-- The bound of C4 is attained: between fully mirroring walls the chain of nested
recursive calls below a call with depth 0 has exactly 3 links, and the fourth-level call
(depth 3) makes no further call. -/
theorem mirror_scene_nesting :
    raycolor_nesting Sample.math Sample.transforms Sample.uninit MAXNUMBER Sample.mirror_scene
        Sample.ray 0 = 3 ∧
      raycolor_nesting Sample.math Sample.transforms Sample.uninit MAXNUMBER
        Sample.mirror_scene Sample.ray 3 = 0 := by
  have key : ∀ (k : Nat) (r : RayInfo ℚ) (n : Int), (MAXNUMBER - n).toNat = k →
      (raycolor_traced Sample.math Sample.transforms Sample.uninit MAXNUMBER
        Sample.mirror_scene r n).2 = k := by
    intro k
    induction k with
    | zero =>
      intro r n hk
      exact raycolor_traced_leaf _ _ _ _ _ r n (by omega)
    | succ k ih =>
      intro r n hk
      have hit : (hit_record Sample.math Sample.transforms Sample.uninit Sample.mirror_scene
          r).t1 ≠ 1000000 := by
        rw [(mirror_scene_hit r).1]; norm_num
      have hrefr : (hit_record Sample.math Sample.transforms Sample.uninit
          Sample.mirror_scene r).material.refractive_index = 0 := by
        rw [(mirror_scene_hit r).2]; rfl
      have hn : n + 1 ≤ MAXNUMBER := by omega
      rw [raycolor_traced_opaque_hit _ _ _ _ _ r n hit hrefr]
      simp only [hn, if_true]
      rw [ih _ (n + 1) (by omega)]
  exact ⟨key 3 _ 0 (by decide), key 0 _ 3 (by decide)⟩

end ShaderFacts

section GeometryFacts

variable {α : Type} [LinearOrderedField α]

/-! ### The mirror law -/

theorem reflection_of_unit (sqrt : α → α) (hsqrt : sqrt 1 = 1) (d n : Vector3 α)
    (hd : dot d d = 1) (hn : dot n n = 1) :
    length sqrt (reflection_direction sqrt d n) = 1 ∧
      reflection_direction sqrt d n = d - (2 * dot d n) • n ∧
      dot (reflection_direction sqrt d n) n = -dot d n := by
  have hrr : dot (d - (2 * dot d n) • n) (d - (2 * dot d n) • n) = 1 := by
    have : dot (d - (2 * dot d n) • n) (d - (2 * dot d n) • n)
        = dot d d - 4 * dot d n * dot d n + 4 * dot d n * dot d n * dot n n := by
      simp only [dot, vector_sub_def, vector_smul_def]
      ring
    rw [this, hd, hn]
    ring
  have hlen : length sqrt (d - (2 * dot d n) • n) = 1 := by
    unfold length
    rw [hrr, hsqrt]
  have hnorm : reflection_direction sqrt d n = d - (2 * dot d n) • n := by
    unfold reflection_direction normalize
    rw [hlen]
    simp
  refine ⟨by rw [hnorm]; exact hlen, hnorm, ?_⟩
  rw [hnorm]
  have : dot (d - (2 * dot d n) • n) n = dot d n - 2 * dot d n * dot n n := by
    simp only [dot, vector_sub_def, vector_smul_def]
    ring
  rw [this, hn]
  ring

/-- C7: over the reals, for every incoming direction `d` and normal `n` of length 1 the
reflection direction of `raycolor`, `normalize(d - 2*dot(d,n)*n)`, has length 1, equals
`d - 2*dot(d,n)*n` itself, and satisfies `dot(reflectionDir, n) = -dot(d, n)`. -/
theorem reflection_mirror_law (d n : Vector3 ℝ) (hd : length Real.sqrt d = 1)
    (hn : length Real.sqrt n = 1) :
    length Real.sqrt (reflection_direction Real.sqrt d n) = 1 ∧
      reflection_direction Real.sqrt d n = d - (2 * dot d n) • n ∧
      dot (reflection_direction Real.sqrt d n) n = -dot d n :=
  reflection_of_unit Real.sqrt Real.sqrt_one d n (Real.sqrt_eq_one.mp hd)
    (Real.sqrt_eq_one.mp hn)

/-- C7 at the incoming direction (3/5, 0, -4/5) and the normal (0, 0, 1). -/
theorem reflection_mirror_law_witness :
    length Real.sqrt (⟨3 / 5, 0, -4 / 5⟩ : Vector3 ℝ) = 1 ∧
      length Real.sqrt (⟨0, 0, 1⟩ : Vector3 ℝ) = 1 ∧
      length Real.sqrt (reflection_direction Real.sqrt ⟨3 / 5, 0, -4 / 5⟩ ⟨0, 0, 1⟩) = 1 ∧
      reflection_direction Real.sqrt (⟨3 / 5, 0, -4 / 5⟩ : Vector3 ℝ) ⟨0, 0, 1⟩
        = ⟨3 / 5, 0, -4 / 5⟩ - (2 * dot (⟨3 / 5, 0, -4 / 5⟩ : Vector3 ℝ) ⟨0, 0, 1⟩)
          • (⟨0, 0, 1⟩ : Vector3 ℝ) ∧
      dot (reflection_direction Real.sqrt (⟨3 / 5, 0, -4 / 5⟩ : Vector3 ℝ) ⟨0, 0, 1⟩)
        ⟨0, 0, 1⟩ = -dot (⟨3 / 5, 0, -4 / 5⟩ : Vector3 ℝ) ⟨0, 0, 1⟩ :=
  have hd : length Real.sqrt (⟨3 / 5, 0, -4 / 5⟩ : Vector3 ℝ) = 1 := by
    unfold length
    rw [Real.sqrt_eq_one]
    norm_num [dot]
  have hn : length Real.sqrt (⟨0, 0, 1⟩ : Vector3 ℝ) = 1 := by
    unfold length
    rw [Real.sqrt_eq_one]
    norm_num [dot]
  ⟨hd, hn, reflection_mirror_law ⟨3 / 5, 0, -4 / 5⟩ ⟨0, 0, 1⟩ hd hn⟩

/-! ### The camera -/

/-- For an odd width the centre pixel `x = (width - 1) / 2` has the offset 1/2, not 0:
`width/2` in line 185 is the integer quotient, which equals `x`. -/
theorem pixel_offset_centre_odd (w : Nat) (hodd : w % 2 = 1) :
    (pixel_offset ((w - 1) / 2) w : α) = 1 / 2 := by
  have : (w - 1) / 2 = w / 2 := by omega
  simp [pixel_offset, this]

/-- C8, the failing pixel: in a 3 x 3 image with the camera on the axis (field of view pi/2,
aspect ratio 1, near clip 1), the centre pixel (1, 1) has offsets 1/2, the pixel sizes
divide by the integer half 1 of the dimension 3, and the primary ray has the direction
`normalize (1/2, 1/2, -1)`, which differs from `normalize(camera direction)`; only its
origin is the camera position. -/
theorem primary_ray_centre_pixel_off_axis :
    (pixel_offset 1 3 : ℝ) = 1 / 2 ∧
      (pixel_size 1 3 : ℝ) = 1 ∧
      (primary_ray ⟨Real.sqrt, Real.tan⟩ (axis_scene (Real.pi / 2)) 1 1 3 3).direction
        = normalize Real.sqrt ⟨1 / 2, 1 / 2, -1⟩ ∧
      normalize Real.sqrt (⟨1 / 2, 1 / 2, -1⟩ : Vector3 ℝ)
        ≠ normalize Real.sqrt (axis_scene (Real.pi / 2 : ℝ)).camera.direction ∧
      (primary_ray ⟨Real.sqrt, Real.tan⟩ (axis_scene (Real.pi / 2)) 1 1 3 3).origin
        = (axis_scene (Real.pi / 2 : ℝ)).camera.position := by
  have htan : Real.tan (Real.pi / 2 / 2) = 1 := by
    rw [show Real.pi / 2 / 2 = Real.pi / 4 by ring, Real.tan_pi_div_four]
  have hoff : (pixel_offset 1 3 : ℝ) = 1 / 2 := by norm_num [pixel_offset]
  have hsize : ∀ e : ℝ, pixel_size e 3 = e := by
    intro e
    norm_num [pixel_size]
  refine ⟨hoff, hsize 1, ?_, ?_, rfl⟩
  · have hright : normalize Real.sqrt (cross (⟨0, 0, -1⟩ : Vector3 ℝ) ⟨0, 1, 0⟩)
        = ⟨1, 0, 0⟩ := by
      norm_num [normalize, length, dot, cross]
    simp only [primary_ray, axis_scene, htan, hoff, hsize, hright]
    congr 1
    norm_num [vector_add_def, vector_smul_def]
  · intro h
    have hx := congrArg Vector3.x h
    have hpos : (0 : ℝ)
        < Real.sqrt (dot (⟨1 / 2, 1 / 2, -1⟩ : Vector3 ℝ) ⟨1 / 2, 1 / 2, -1⟩) :=
      Real.sqrt_pos.mpr (by norm_num [dot])
    simp only [normalize, length, axis_scene, zero_div] at hx
    exact (div_pos (by norm_num : (0 : ℝ) < 1 / 2) hpos).ne (Eq.symm hx)

end GeometryFacts

section DriverFacts

/-- C2, as the code has it: `initialize` does not look at the dimensions. For every driver
state, scene, width and height (zero included) it returns true, stores the three arguments
and sets `current_row` to zero. -/
theorem initialize_always_succeeds {α : Type} (self : Raytracer α) (scene : Scene α)
    (width height : Nat) :
    Raytracer.initialize self scene width height = (true, ⟨scene, width, height, 0⟩) := by
  simp [ Raytracer.initialize]

variable {α : Type} [LinearOrderedField α]

/-- C2 fails as stated: called with width 0 and height 0 on a driver that is at row 2 of a
5 x 5 image, `initialize` does not return false and does not leave width, height and
`current_row` as they were. -/
theorem initialize_zero_dimensions_accepted :
    ( Raytracer.initialize (⟨Sample.scene [] [], 5, 5, 2⟩ : Raytracer ℚ)
        (Sample.scene [Sample.miss] []) 0 0).1 ≠ false ∧
      ( Raytracer.initialize (⟨Sample.scene [] [], 5, 5, 2⟩ : Raytracer ℚ)
        (Sample.scene [Sample.miss] []) 0 0).2.width ≠ 5 ∧
      ( Raytracer.initialize (⟨Sample.scene [] [], 5, 5, 2⟩ : Raytracer ℚ)
        (Sample.scene [Sample.miss] []) 0 0).2.height ≠ 5 ∧
      ( Raytracer.initialize (⟨Sample.scene [] [], 5, 5, 2⟩ : Raytracer ℚ)
        (Sample.scene [Sample.miss] []) 0 0).2.current_row ≠ 2 := by
  simp [ Raytracer.initialize]

/-! ### The rows of the image -/

theorem store_writes (cv : Canvas) (offset : Nat) (bytes : Nat → Nat) :
    (cv.store offset bytes).writes = offset :: cv.writes := rfl

theorem store_buffer (cv : Canvas) (offset : Nat) (bytes : Nat → Nat) (j : Nat) :
    (cv.store offset bytes).buffer j
      = if offset ≤ j ∧ j < offset + 4 then bytes (j - offset) else cv.buffer j := rfl

theorem store_foldl_writes (f : Nat → Nat) (g : Nat → Nat → Nat) (l : List Nat) :
    ∀ cv : Canvas, (l.foldl (fun cv x => cv.store (f x) (g x)) cv).writes
      = (l.map f).reverse ++ cv.writes := by
  induction l with
  | nil => intro cv; simp
  | cons a l ih => intro cv; rw [List.foldl_cons, ih, store_writes]; simp

theorem store_range_buffer (base : Nat) (g : Nat → Nat → Nat) (cv : Canvas) (n j : Nat) :
    ((List.range n).foldl (fun cv x => cv.store (4 * (base + x)) (g x)) cv).buffer j
      = if 4 * base ≤ j ∧ j < 4 * (base + n) then g (j / 4 - base) (j % 4)
        else cv.buffer j := by
  induction n with
  | zero =>
    have : ¬ (4 * base ≤ j ∧ j < 4 * (base + 0)) := by omega
    rw [if_neg this]
    rfl
  | succ n ih =>
    rw [List.range_succ, List.foldl_append]
    simp only [List.foldl_cons, List.foldl_nil]
    rw [store_buffer]
    by_cases h1 : 4 * (base + n) ≤ j ∧ j < 4 * (base + n) + 4
    · have h2 : 4 * base ≤ j ∧ j < 4 * (base + (n + 1)) := by omega
      have h3 : j / 4 - base = n := by omega
      have h4 : j % 4 = j - 4 * (base + n) := by omega
      rw [if_pos h1, if_pos h2, h3, h4]
    · rw [if_neg h1, ih]
      by_cases h2 : 4 * base ≤ j ∧ j < 4 * (base + n)
      · have h3 : 4 * base ≤ j ∧ j < 4 * (base + (n + 1)) := by omega
        rw [if_pos h2, if_pos h3]
      · have h3 : ¬ (4 * base ≤ j ∧ j < 4 * (base + (n + 1))) := by omega
        rw [if_neg h2, if_neg h3]

theorem cell_offset_eq (r w x : Nat) (h : 4 * (r * w + x) < SIZE_MOD) :
    cell_offset r w x = 4 * (r * w + x) := by
  simp [cell_offset, Nat.mod_eq_of_lt h]

theorem raytrace_row_eq (M : MathFns α) (T : Transforms α) (u : Uninit α)
    (to_array : Color3 α → Nat → Nat) (scene : Scene α) (w h r : Nat) (cv : Canvas)
    (hfit : 4 * (r * w + w) ≤ SIZE_MOD) :
    raytrace_row M T u to_array ⟨scene, w, h, r⟩ cv
      = (List.range w).foldl
          (fun cv x => cv.store (4 * (r * w + x)) (to_array (trace_pixel M T u scene x r w h)))
          cv := by
  unfold raytrace_row
  apply List.foldl_ext
  intro cv x hx
  have hx1 : x < w := List.mem_range.mp hx
  have : 4 * (r * w + x) < SIZE_MOD := by omega
  simp [cell_offset_eq r w x this]

theorem rendered_rows_writes (M : MathFns α) (T : Transforms α) (u : Uninit α)
    (to_array : Color3 α → Nat → Nat) (scene : Scene α) (w h : Nat) (cv : Canvas) :
    ∀ m, 4 * (m * w) ≤ SIZE_MOD →
      (rendered_rows M T u to_array scene w h m cv).writes
        = ((List.range (m * w)).map (fun i => 4 * i)).reverse ++ cv.writes := by
  intro m
  induction m with
  | zero => intro _; simp [rendered_rows]
  | succ m ih =>
    intro hfit
    have hm : 4 * (m * w) ≤ SIZE_MOD := by
      have : (m + 1) * w = m * w + w := by ring
      omega
    have hrow : 4 * (m * w + w) ≤ SIZE_MOD := by
      have : (m + 1) * w = m * w + w := by ring
      omega
    rw [rendered_rows, raytrace_row_eq M T u to_array scene w h m _ hrow,
      store_foldl_writes (fun x => 4 * (m * w + x)), ih hm]
    have hsplit : (m + 1) * w = m * w + w := by ring
    rw [hsplit, List.range_add, List.map_append, List.reverse_append, List.map_map,
      List.append_assoc]
    rfl

theorem rendered_rows_buffer (M : MathFns α) (T : Transforms α) (u : Uninit α)
    (to_array : Color3 α → Nat → Nat) (scene : Scene α) (w h : Nat) (cv : Canvas) (j : Nat) :
    ∀ m, 4 * (m * w) ≤ SIZE_MOD →
      (rendered_rows M T u to_array scene w h m cv).buffer j
        = if j < 4 * (m * w) then
            to_array (trace_pixel M T u scene (j / 4 % w) (j / 4 / w) w h) (j % 4)
          else cv.buffer j := by
  intro m
  induction m with
  | zero => intro _; simp [rendered_rows]
  | succ m ih =>
    intro hfit
    have hsplit : (m + 1) * w = m * w + w := by ring
    have hm : 4 * (m * w) ≤ SIZE_MOD := by omega
    have hrow : 4 * (m * w + w) ≤ SIZE_MOD := by omega
    rw [rendered_rows, raytrace_row_eq M T u to_array scene w h m _ hrow,
      store_range_buffer (m * w) (fun x => to_array (trace_pixel M T u scene x m w h)),
      ih hm, hsplit]
    by_cases h1 : 4 * (m * w) ≤ j ∧ j < 4 * (m * w + w)
    · have h2 : j < 4 * (m * w + w) := h1.2
      have hq : j / 4 = m * w + (j / 4 - m * w) := by omega
      have hx : j / 4 - m * w < w := by omega
      have hmod : j / 4 % w = j / 4 - m * w := by
        rw [hq, Nat.mul_comm m w, Nat.mul_add_mod, Nat.mod_eq_of_lt]
        · omega
        · rw [Nat.mul_comm w m]; omega
      have hdiv : j / 4 / w = m := by
        rw [hq, Nat.mul_comm m w, Nat.mul_add_div (by omega : 0 < w), Nat.div_eq_of_lt]
        · omega
        · rw [Nat.mul_comm w m]; omega
      rw [if_pos h1, if_pos h2, hmod, hdiv]
    · rw [if_neg h1]
      by_cases h2 : j < 4 * (m * w)
      · have h3 : j < 4 * (m * w + w) := by omega
        rw [if_pos h2, if_pos h3]
      · have h3 : ¬ j < 4 * (m * w + w) := by omega
        rw [if_neg h2, if_neg h3]

/-! ### The loop of `raytrace` -/

theorem raytrace_loop_spec (M : MathFns α) (T : Transforms α) (u : Uninit α)
    (to_array : Color3 α → Nat → Nat) (scene : Scene α) (w h : Nat) (hh : h < SIZE_MOD)
    (cv0 : Canvas) :
    ∀ (k c : Nat) (d : Bool), c ≤ h →
      raytrace_loop M T u to_array k
          ⟨⟨scene, w, h, c⟩, rendered_rows M T u to_array scene w h c cv0, d⟩
        = (⟨⟨scene, w, h, c + min k (h - c)⟩,
            rendered_rows M T u to_array scene w h (c + min k (h - c)) cv0,
            if k = 0 then d else decide (h - c < k)⟩, decide (h - c < k)) := by
  intro k
  induction k with
  | zero => intro c d _; simp [raytrace_loop]
  | succ k ih =>
    intro c d hc
    rw [raytrace_loop]
    by_cases hch : c = h
    · subst hch
      simp
    · have hlt : c < h := by omega
      have hmod : (c + 1) % SIZE_MOD = c + 1 := Nat.mod_eq_of_lt (by omega)
      have hidx : c + 1 + min k (h - (c + 1)) = c + min (k + 1) (h - c) := by omega
      have hdec : decide (h - (c + 1) < k) = decide (h - c < k + 1) := by
        apply decide_eq_decide.mpr
        omega
      simp only [hch, if_false, hmod]
      have hrow : raytrace_row M T u to_array ⟨scene, w, h, c⟩
          (rendered_rows M T u to_array scene w h c cv0)
          = rendered_rows M T u to_array scene w h (c + 1) cv0 := rfl
      rw [hrow, ih (c + 1) false (by omega), hidx, hdec]
      by_cases hk : k = 0
      · subst hk
        have : ¬ (h - c < 0 + 1) := by omega
        simp [this]
      · simp [hk]

/-- A call of `raytrace` with a time budget, on a driver that has stored the rows before
`c`: it stores the next `min ticks (h - c)` rows; the flag it returns is the content of the
unassigned `is_done` when the deadline has passed at the first test of the loop condition
(`ticks = 0`), and otherwise tells whether the loop was left by `break`. -/
theorem raytrace_budget_spec (M : MathFns α) (T : Transforms α) (u : Uninit α)
    (to_array : Color3 α → Nat → Nat) (scene : Scene α) (w h : Nat) (hh : h < SIZE_MOD)
    (cv0 : Canvas) (ticks c fuel : Nat) (d : Bool) (hc : c ≤ h) :
    Raytracer.raytrace M T u to_array ⟨scene, w, h, c⟩
        (rendered_rows M T u to_array scene w h c cv0) (some ticks) d fuel
      = some (if ticks = 0 then d else decide (h - c < ticks),
          ⟨scene, w, h, c + min ticks (h - c)⟩,
          rendered_rows M T u to_array scene w h (c + min ticks (h - c)) cv0) := by
  simp [Raytracer.raytrace, raytrace_loop_spec M T u to_array scene w h hh cv0 ticks c d hc]

/-- A call of `raytrace` without a time budget returns, given more than `h - c` units of
fuel: it stores all remaining rows and reports done. -/
theorem raytrace_batch_spec (M : MathFns α) (T : Transforms α) (u : Uninit α)
    (to_array : Color3 α → Nat → Nat) (scene : Scene α) (w h : Nat) (hh : h < SIZE_MOD)
    (cv0 : Canvas) (c fuel : Nat) (d : Bool) (hc : c ≤ h) (hfuel : h - c < fuel) :
    Raytracer.raytrace M T u to_array ⟨scene, w, h, c⟩
        (rendered_rows M T u to_array scene w h c cv0) none d fuel
      = some (true, ⟨scene, w, h, h⟩, rendered_rows M T u to_array scene w h h cv0) := by
  have hmin : c + min fuel (h - c) = h := by omega
  have hfuel0 : fuel ≠ 0 := by omega
  simp [Raytracer.raytrace, raytrace_loop_spec M T u to_array scene w h hh cv0 fuel c d hc,
    hmin, hfuel, hfuel0]

theorem raytrace_calls_spec (M : MathFns α) (T : Transforms α) (u : Uninit α)
    (to_array : Color3 α → Nat → Nat) (scene : Scene α) (w h : Nat) (hh : h < SIZE_MOD)
    (cv0 : Canvas) :
    ∀ (calls : List (Nat × Bool)) (c : Nat) (flag : Bool), c ≤ h →
      ∃ (c1 : Nat) (flag1 : Bool), c ≤ c1 ∧ c1 ≤ h ∧
        raytrace_calls M T u to_array calls
            (flag, ⟨scene, w, h, c⟩, rendered_rows M T u to_array scene w h c cv0)
          = some (flag1, ⟨scene, w, h, c1⟩,
              rendered_rows M T u to_array scene w h c1 cv0) := by
  intro calls
  induction calls with
  | nil => intro c flag hc; exact ⟨c, flag, le_refl c, hc, rfl⟩
  | cons call rest ih =>
    intro c flag hc
    obtain ⟨c1, flag1, h1, h2, h3⟩ := ih (c + min call.1 (h - c))
      (if call.1 = 0 then call.2 else decide (h - c < call.1)) (by omega)
    refine ⟨c1, flag1, by omega, h2, ?_⟩
    rw [raytrace_calls]
    simp only []
    rw [raytrace_budget_spec M T u to_array scene w h hh cv0 call.1 c 0 call.2 hc]
    simpa using h3

/-- Resumption: after `initialize`, any sequence of budgeted calls whose last call finds
its loop condition true at least once and returns done leaves the driver and the buffer
exactly as a single call without budget does. -/
theorem budgeted_calls_reach_batch (M : MathFns α) (T : Transforms α) (u : Uninit α)
    (to_array : Color3 α → Nat → Nat) (self : Raytracer α) (scene : Scene α) (w h : Nat)
    (hh : h < SIZE_MOD) (cv0 : Canvas) (calls : List (Nat × Bool)) (ticks : Nat)
    (d0 d1 : Bool) (fuel : Nat) (hfuel : h < fuel) (hticks : 1 ≤ ticks)
    (res : Raytracer α × Canvas)
    (hdone : raytrace_calls M T u to_array (calls ++ [(ticks, d0)])
      (false, ( Raytracer.initialize self scene w h).2, cv0) = some (true, res)) :
    Raytracer.raytrace M T u to_array ( Raytracer.initialize self scene w h).2 cv0 none d1 fuel
        = some (true, res) ∧
      res = (⟨scene, w, h, h⟩, rendered_rows M T u to_array scene w h h cv0) := by
  have hinit : ( Raytracer.initialize self scene w h).2 = ⟨scene, w, h, 0⟩ := by
    simp [ Raytracer.initialize]
  have hcv : cv0 = rendered_rows M T u to_array scene w h 0 cv0 := rfl
  have hbatch := raytrace_batch_spec M T u to_array scene w h hh cv0 0 fuel d1
    (Nat.zero_le h) (by omega)
  rw [← hcv] at hbatch
  rw [hinit] at hdone ⊢
  have key : ∀ (calls : List (Nat × Bool)) (c : Nat) (flag : Bool), c ≤ h →
      raytrace_calls M T u to_array (calls ++ [(ticks, d0)])
          (flag, ⟨scene, w, h, c⟩, rendered_rows M T u to_array scene w h c cv0)
        = some (true, res) →
      res = (⟨scene, w, h, h⟩, rendered_rows M T u to_array scene w h h cv0) := by
    intro calls
    induction calls with
    | nil =>
      intro c flag hc hrun
      rw [List.nil_append, raytrace_calls] at hrun
      simp only [] at hrun
      rw [raytrace_budget_spec M T u to_array scene w h hh cv0 ticks c 0 d0 hc] at hrun
      have hne : ticks ≠ 0 := by omega
      simp only [Option.some_bind, raytrace_calls, hne, if_false, Option.some.injEq,
        Prod.mk.injEq, decide_eq_true_eq] at hrun
      obtain ⟨hlt, hres⟩ := hrun
      have hmin : c + min ticks (h - c) = h := by omega
      rw [hmin] at hres
      rw [← hres]
    | cons call rest ih =>
      intro c flag hc hrun
      rw [List.cons_append, raytrace_calls] at hrun
      simp only [] at hrun
      rw [raytrace_budget_spec M T u to_array scene w h hh cv0 call.1 c 0 call.2 hc] at hrun
      exact ih _ _ (by omega) hrun
  have hres := key calls 0 false (Nat.zero_le h) (by rw [← hcv]; exact hdone)
  exact ⟨by rw [hbatch, hres], hres⟩

/-- The premise of `budgeted_calls_reach_batch` can be met: a single budgeted call whose
budget outlasts all rows and the final test `current_row == height` returns done with the
whole image stored. -/
theorem budgeted_call_finishes (M : MathFns α) (T : Transforms α) (u : Uninit α)
    (to_array : Color3 α → Nat → Nat) (self : Raytracer α) (scene : Scene α) (w h : Nat)
    (hh : h < SIZE_MOD) (cv0 : Canvas) (d : Bool) :
    raytrace_calls M T u to_array [(h + 1, d)]
        (false, ( Raytracer.initialize self scene w h).2, cv0)
      = some (true, ⟨scene, w, h, h⟩, rendered_rows M T u to_array scene w h h cv0) := by
  have hinit : ( Raytracer.initialize self scene w h).2 = ⟨scene, w, h, 0⟩ := by
    simp [ Raytracer.initialize]
  have hcv : cv0 = rendered_rows M T u to_array scene w h 0 cv0 := rfl
  have hcall := raytrace_budget_spec M T u to_array scene w h hh cv0 (h + 1) 0 0 d
    (Nat.zero_le h)
  rw [← hcv] at hcall
  rw [hinit, raytrace_calls]
  simp only []
  rw [hcall]
  simp [raytrace_calls]

/-- The finished image: under the dimensions of a buffer that can be addressed
(`4 * (h * w)` bytes), the cell at `4 * (row * w + x)` holds the four bytes of
`trace_pixel(scene, x, row, w, h)`, bytes past the image are untouched, and the cell has
been stored exactly once. -/
theorem rendered_image_cells (M : MathFns α) (T : Transforms α) (u : Uninit α)
    (to_array : Color3 α → Nat → Nat) (scene : Scene α) (w h : Nat)
    (hfit : 4 * (h * w) ≤ SIZE_MOD) (cv0 : Canvas) (hlog : cv0.writes = [])
    (row x : Nat) (hrow : row < h) (hx : x < w) :
    (∀ k, k < 4 →
      (rendered_rows M T u to_array scene w h h cv0).buffer (4 * (row * w + x) + k)
        = to_array (trace_pixel M T u scene x row w h) k) ∧
      (rendered_rows M T u to_array scene w h h cv0).writes.count (4 * (row * w + x)) = 1 := by
  have hcell : row * w + x < h * w := by
    have : (row + 1) * w ≤ h * w := Nat.mul_le_mul_right w hrow
    have : (row + 1) * w = row * w + w := by ring
    omega
  constructor
  · intro k hk
    rw [rendered_rows_buffer M T u to_array scene w h cv0 _ h hfit]
    have h1 : 4 * (row * w + x) + k < 4 * (h * w) := by omega
    have h2 : (4 * (row * w + x) + k) / 4 = row * w + x := by omega
    have h3 : (4 * (row * w + x) + k) % 4 = k := by omega
    have h4 : (row * w + x) % w = x := by
      rw [Nat.mul_comm row w, Nat.mul_add_mod, Nat.mod_eq_of_lt hx]
    have h5 : (row * w + x) / w = row := by
      rw [Nat.mul_comm row w, Nat.mul_add_div (by omega : 0 < w), Nat.div_eq_of_lt hx]
      rfl
    rw [if_pos h1, h2, h3, h4, h5]
  · rw [rendered_rows_writes M T u to_array scene w h cv0 h hfit, hlog, List.append_nil,
      List.count_reverse]
    apply List.count_eq_one_of_mem
    · apply List.Nodup.map _ (List.nodup_range _)
      intro a b hab
      simpa using hab
    · exact List.mem_map.mpr ⟨row * w + x, List.mem_range.mpr hcell, rfl⟩

/-- C3, the failing run: after `initialize(scene, 1, 1)` a single budgeted call whose deadline
has passed at the first test of the loop condition (no clock tick left) and whose unassigned
`is_done` holds true returns done with `current_row` still 0 and nothing stored, whereas
the call without budget stores the pixel at offset 0 (here as bytes 255 over a zeroed
buffer). -/
theorem raytrace_expired_budget_reports_done :
    (raytrace_calls Sample.math Sample.transforms Sample.uninit (fun _ _ => 255) [(0, true)]
        (false,
          ( Raytracer.initialize ⟨Sample.scene [] [], 0, 0, 0⟩ (Sample.scene [] []) 1 1).2,
          ⟨fun _ => 0, []⟩)).map
        (fun res => (res.1, res.2.1.current_row, res.2.2.buffer 0, res.2.2.writes))
      = some (true, 0, 0, []) ∧
    (Raytracer.raytrace Sample.math Sample.transforms Sample.uninit (fun _ _ => 255)
        ( Raytracer.initialize ⟨Sample.scene [] [], 0, 0, 0⟩ (Sample.scene [] []) 1 1).2
        ⟨fun _ => 0, []⟩ none true 2).map
        (fun res => (res.1, res.2.1.current_row, res.2.2.buffer 0, res.2.2.writes))
      = some (true, 1, 255, [0]) := by
  constructor
  · simp [raytrace_calls, Raytracer.raytrace, raytrace_loop, Raytracer.initialize]
  · simp [Raytracer.raytrace, raytrace_loop, Raytracer.initialize, raytrace_row,
      store_writes, store_buffer, cell_offset, SIZE_MOD, List.range_succ]

/-! ### Calls after completion -/

/-- After completion a call of `raytrace` whose loop condition holds at least once (no
budget and some fuel, or a budget with a clock tick left) returns done, stores nothing and
leaves the driver as it is. -/
theorem raytrace_completed_live (M : MathFns α) (T : Transforms α) (u : Uninit α)
    (to_array : Color3 α → Nat → Nat) (self : Raytracer α) (cv : Canvas) (d : Bool)
    (k fuel : Nat) (hrow : self.current_row = self.height) :
    Raytracer.raytrace M T u to_array self cv none d (fuel + 1) = some (true, self, cv) ∧
      Raytracer.raytrace M T u to_array self cv (some (k + 1)) d fuel
        = some (true, self, cv) := by
  simp [Raytracer.raytrace, raytrace_loop, hrow]

/-- A budgeted call whose deadline has passed when the loop condition is first tested runs
no iteration: it returns the content of the unassigned `is_done`. -/
theorem raytrace_expired_budget (M : MathFns α) (T : Transforms α) (u : Uninit α)
    (to_array : Color3 α → Nat → Nat) (self : Raytracer α) (cv : Canvas) (d : Bool)
    (fuel : Nat) :
    Raytracer.raytrace M T u to_array self cv (some 0) d fuel = some (d, self, cv) := by
  simp [Raytracer.raytrace, raytrace_loop]

/-- C9, the failing call: on a completed 1 x 1 image (`current_row = height = 1`) a call
with a budget whose deadline has passed at the first test of the loop condition, the
unassigned `is_done` holding false, returns false instead of done. -/
theorem raytrace_completed_expired_budget_not_done :
    (Raytracer.raytrace Sample.math Sample.transforms Sample.uninit (fun _ _ => 255)
        ⟨Sample.scene [] [], 1, 1, 1⟩ ⟨fun _ => 0, []⟩ (some 0) false 0).map
        (fun res => (res.1, res.2.1.current_row, res.2.2.writes))
      = some (false, 1, []) := by
  rw [raytrace_expired_budget]
  rfl

end DriverFacts

end Raytracing
